import Mathlib

/-!
# Admin OTP authentication routes (`src/routes/admin.js`)

A shallow embedding of the admin router: the `request-otp`, `verify-otp` and
`verify-token` handlers and the pagination arithmetic of the list endpoints,
followed by theorems about them.

Conventions of the embedding:

* a handler is a pure function from its inputs (configuration, store, request,
  clock, random draw) to the response it sends and the store it leaves;
* a JavaScript exception thrown inside a handler's `try` block is the
  `500 {error: 'Server error'}` response of its `catch` block;
* times are milliseconds since the epoch, as returned by `Date.now()`;
* the arithmetic on `Math.random()` is binary64 arithmetic: every operation rounds its
  exact result to the nearest double, ties to even;
* store operations (`findOne`, `save`) succeed, and `ADMIN_EMAIL` and
  `ADMIN_JWT_SECRET` are set in the environment.
-/

set_option autoImplicit false

namespace Alvant

/-! ## JavaScript values and string primitives -/

/-- The code points removed by `String.prototype.trim` (ECMAScript `WhiteSpace` and
`LineTerminator`): TAB, LF, VT, FF, CR, SP, NBSP, U+1680, U+2000..U+200A, LS, PS, U+202F,
U+205F, U+3000 and the BOM. `parseInt` skips the same set at the start of its input. -/
def isJsWhiteSpace (c : Char) : Bool :=
  c.toNat == 0x09 || c.toNat == 0x0A || c.toNat == 0x0B || c.toNat == 0x0C ||
  c.toNat == 0x0D || c.toNat == 0x20 || c.toNat == 0xA0 || c.toNat == 0x1680 ||
  (0x2000 ≤ c.toNat && c.toNat ≤ 0x200A) ||
  c.toNat == 0x2028 || c.toNat == 0x2029 || c.toNat == 0x202F || c.toNat == 0x205F ||
  c.toNat == 0x3000 || c.toNat == 0xFEFF

/-- The method `String.prototype.trim`: white space is dropped at both ends. -/
def trim (s : String) : String :=
  String.mk ((s.data.dropWhile isJsWhiteSpace).reverse.dropWhile isJsWhiteSpace).reverse

/-- The values a field of a parsed request body can hold, as far as the handlers
distinguish them: a missing field, `null`, a boolean, an integer of magnitude at most
`2 ^ 53` (the range in which every integer is a double and prints as its exact decimal
digits), a string, and `other` for every remaining value (any other number, an array or
an object). Such a value is truthy and has no `trim` method; `str` is what its
`toString()` returns, `none` when that call throws. -/
inductive JsValue where
  | undefined
  | null
  | bool (b : Bool)
  | number (n : Int) (safe : n.natAbs ≤ 9007199254740992)
  | string (s : String)
  | other (str : Option String)
  deriving DecidableEq, Repr

namespace JsValue

/-- JavaScript truthiness (`ToBoolean`), the meaning of `!v` and of `v ? a : b`. -/
def truthy : JsValue → Bool
  | undefined => false
  | null => false
  | bool b => b
  | number n _ => n != 0
  | string s => s != ""
  | other _ => true

/-- The call `v.toString()`; `none` is the `TypeError` raised on `undefined` and `null`.
An integer of the safe range prints in decimal. -/
def toJsString : JsValue → Option String
  | undefined => none
  | null => none
  | bool b => some (if b then "true" else "false")
  | number n _ => some (toString n)
  | string s => some s
  | other str => str

end JsValue

/-! ## Configuration -/

/-- The process configuration read by the router, together with the case mapping of the
JavaScript runtime, `String.prototype.toLowerCase`, which the handlers only ever compare
for equality. -/
structure Env where
  /-- The variable `process.env.ADMIN_EMAIL`. -/
  ADMIN_EMAIL : String
  /-- The method `String.prototype.toLowerCase`. -/
  toLowerCase : String → String
  /-- Whether `process.env.NODE_ENV === 'production'`. -/
  production : Bool

/-! ## Credential store -/

/-- Modelled from the spec: the `Admin` model (`models/Admin.js`), whose schema is the
AdminCredential entity `{email: string (unique key), otp: optional string, otpExpires:
optional timestamp}`. `none` is a field that is unset (`undefined`). -/
structure Admin where
  _id : Nat
  email : String
  otp : Option String
  otpExpires : Option Nat
  deriving DecidableEq, Repr

/-- Modelled from the spec: the credential store is a collection of `Admin` documents in
which `email` is the unique key. -/
abbrev Store := List Admin

/-- Modelled from the spec: `Admin.findOne({ email })`, the document stored under `email`,
if any. -/
def findOne (store : Store) (email : String) : Option Admin :=
  store.find? (fun a => a.email == email)

/-- Modelled from the spec: `admin.save()`, an upsert by the unique key `email`: the stored
document with that email is replaced, and a document with a new email is added. -/
def save : Store → Admin → Store
  | [], doc => [doc]
  | a :: rest, doc => if a.email == doc.email then doc :: rest else a :: save rest doc

/-- Modelled from the spec: the form of a stored code in the AdminCredential entity, whose
`otp` is an "optional 6-digit numeric string": six characters, all of them digits. It is
the form of every code that `request-otp` writes. -/
def sixDigit (code : String) : Bool :=
  code.length == 6 && code.data.all Char.isDigit

/-! ## Responses -/

/-- The claim set of a signed session token: the payload `{id, email}` given to `jwt.sign`
and the `iat` and `exp` claims (in seconds) that `jsonwebtoken` adds. -/
structure SessionToken where
  id : Nat
  email : String
  iat : Nat
  exp : Nat
  deriving DecidableEq, Repr

/-- The JSON bodies the handlers send. -/
inductive Body where
  | error (msg : String)
  | message (msg : String)
  | token (t : SessionToken)
  | session (admin : SessionToken)
  deriving DecidableEq, Repr

/-- An HTTP response: `res.status(status).json(body)`; `res.json(body)` has status 200. -/
structure Response where
  status : Nat
  body : Body
  deriving DecidableEq, Repr

/-- The response of every `catch (err)` block of the router. -/
def serverError : Response := ⟨500, .error "Server error"⟩

/-- The 403 response sent by both OTP handlers on an email mismatch. -/
def forbidden : Response :=
  ⟨403, .error "Unauthorized email address. Please use the registered admin email."⟩

/-! ## `POST /request-otp` -/

/-- Rounding of a rational to the nearest integer, a tie going to the even neighbour. -/
def roundHalfEven (t : ℚ) : Int :=
  if t - ⌊t⌋ < 1 / 2 then ⌊t⌋
  else if 1 / 2 < t - ⌊t⌋ then ⌊t⌋ + 1
  else if ⌊t⌋ % 2 = 0 then ⌊t⌋ else ⌊t⌋ + 1

/-- The exponent of the spacing of the binary64 numbers around `x`: 53 significant bits,
so `2 ^ (e - 52)` for `2 ^ e ≤ |x| < 2 ^ (e + 1)`, and never below `2 ^ (-1074)`, the
spacing of the subnormal numbers. -/
def ulpExponent (x : ℚ) : Int :=
  max (Int.log 2 |x| - 52) (-1074)

/-- The binary64 number nearest to `x`, a tie going to the even significand: the rounding
that every arithmetic operation on JavaScript numbers applies to its exact result. The
overflow to `Infinity` (from `2 ^ 1024`) is not represented; the operands of
`generateOtp` stay below `2 ^ 20`. -/
def roundDouble (x : ℚ) : ℚ :=
  roundHalfEven (x / 2 ^ ulpExponent x) * 2 ^ ulpExponent x

/-- The number `Math.floor(100000 + Math.random() * 900000)`, for the value `r` returned by
`Math.random()`: the product and the sum are each rounded to a double, and the floor of a
double is exact. A value `r` is a double when `roundDouble r = r`. -/
def otpNumber (r : ℚ) : Int :=
  ⌊roundDouble (100000 + roundDouble (r * 900000))⌋

/-- The generated code `Math.floor(100000 + Math.random() * 900000).toString()`. -/
def generateOtp (r : ℚ) : String :=
  toString (otpNumber r)

/-- What a `request-otp` call observes of the outside world. -/
structure RequestCtx where
  /-- The value of `Date.now()`. -/
  now : Nat
  /-- The value of `Math.random()`, a double in `[0, 1)`. -/
  random : ℚ
  /-- The `_id` given to a document created by `new Admin(...)`. -/
  newId : Nat
  /-- Whether `sendOTPEmail` returns (`true`) or throws (`false`). -/
  mailOk : Bool

/-- The handler `router.post('/request-otp')`, for the `email` field of the request body. -/
def requestOtp (env : Env) (store : Store) (email : JsValue) (ctx : RequestCtx) :
    Response × Store :=
  if !email.truthy then (⟨400, .error "Email is required"⟩, store) else
  match email with
  | .string e =>
    if trim e = "" then (⟨400, .error "Email is required"⟩, store) else
    let trimmedEmail := env.toLowerCase (trim e)
    if trimmedEmail ≠ env.toLowerCase env.ADMIN_EMAIL then (forbidden, store) else
    let admin : Admin :=
      match findOne store env.ADMIN_EMAIL with
      | some a => a
      | none => { _id := ctx.newId, email := env.ADMIN_EMAIL, otp := none, otpExpires := none }
    let otp := generateOtp ctx.random
    let expires := ctx.now + 5 * 60 * 1000
    let store' := save store { admin with otp := some otp, otpExpires := some expires }
    if ctx.mailOk then (⟨200, .message "OTP sent to your email"⟩, store')
    else if env.production then
      (⟨500, .error "Failed to send OTP email. Please check email configuration."⟩, store')
    else (⟨200, .message "OTP sent to your email"⟩, store')
  | _ => (serverError, store)

/-! ## `POST /verify-otp` -/

/-- The fields `{ email, otp, remember }` of a `verify-otp` request body. -/
structure VerifyBody where
  email : JsValue
  otp : JsValue
  remember : JsValue
  deriving DecidableEq, Repr

/-- The duration, in seconds, that `jsonwebtoken` derives from an `expiresIn` string of the
form digits followed by a unit letter (`d`, `h`, `m` or `s`), as the `ms` package reads it;
`none` for any other string, on which `jwt.sign` throws. -/
def timespan (expiresIn : String) : Option Nat :=
  match expiresIn.data.reverse with
  | [] => none
  | u :: ds =>
    if ds.isEmpty || !ds.all Char.isDigit then none else
    let n := ds.reverse.foldl (fun acc c => acc * 10 + (c.toNat - '0'.toNat)) 0
    match u with
    | 'd' => some (n * 86400)
    | 'h' => some (n * 3600)
    | 'm' => some (n * 60)
    | 's' => some n
    | _ => none

/-- The call `jwt.sign(payload, JWT_SECRET, { expiresIn })` at time `now` (milliseconds),
as the claim set of the token it returns: `iat` is the current time in seconds and `exp`
is `iat` plus the requested lifetime. `none` is a thrown error. -/
def jwtSign (id : Nat) (email : String) (expiresIn : String) (now : Nat) :
    Option SessionToken :=
  match timespan expiresIn with
  | some secs => some { id := id, email := email, iat := now / 1000, exp := now / 1000 + secs }
  | none => none

/-- The test `!admin.otp` on a stored code: the field is unset or the empty string. -/
def otpUnset : Option String → Bool
  | none => true
  | some s => s == ""

/-- The test `new Date() > admin.otpExpires` at time `now`, for a stored expiry. -/
def isAfter (now : Nat) : Option Nat → Bool
  | none => false
  | some expires => decide (now > expires)

/-- The handler `router.post('/verify-otp')` at time `now`. -/
def verifyOtp (env : Env) (store : Store) (body : VerifyBody) (now : Nat) :
    Response × Store :=
  if !body.email.truthy then (⟨400, .error "Email and OTP are required"⟩, store) else
  match body.email with
  | .string e =>
    if trim e = "" then (⟨400, .error "Email and OTP are required"⟩, store) else
    if !body.otp.truthy then (⟨400, .error "Email and OTP are required"⟩, store) else
    match body.otp.toJsString with
    | none => (serverError, store)
    | some otp =>
      if trim otp = "" then (⟨400, .error "Email and OTP are required"⟩, store) else
      let trimmedEmail := env.toLowerCase (trim e)
      if trimmedEmail ≠ env.toLowerCase env.ADMIN_EMAIL then (forbidden, store) else
      match findOne store env.ADMIN_EMAIL with
      | none => (⟨400, .error "Admin not found"⟩, store)
      | some admin =>
        if otpUnset admin.otp || admin.otpExpires.isNone || isAfter now admin.otpExpires then
          (⟨400, .error "OTP expired or not requested"⟩, store)
        else if admin.otp ≠ some otp then (⟨400, .error "Invalid OTP"⟩, store)
        else
          match jwtSign admin._id admin.email (if body.remember.truthy then "30d" else "6h")
              now with
          | none => (serverError, store)
          | some token =>
            (⟨200, .token token⟩, save store { admin with otp := none, otpExpires := none })
  | _ => (serverError, store)

/-- The store left by a sequence of `verify-otp` calls, each a request body and the time
at which it is handled. -/
def verifyAll (env : Env) : Store → List (VerifyBody × Nat) → Store
  | store, [] => store
  | store, (body, now) :: rest => verifyAll env (verifyOtp env store body now).2 rest

/-! ## `GET /verify-token` -/

/-- The pieces of `cs` between occurrences of the space character: `split(' ')` on the
characters of a string. -/
def splitOnSpace : List Char → List (List Char)
  | [] => [[]]
  | c :: cs =>
    if c = ' ' then [] :: splitOnSpace cs
    else
      match splitOnSpace cs with
      | [] => [[c]]
      | p :: ps => (c :: p) :: ps

/-- The call `s.split(' ')`. -/
def split (s : String) : List String :=
  (splitOnSpace s.data).map String.mk

/-- The expression `a || b` on two header values, each absent or a string. -/
def orElseHeader (a b : Option String) : Option String :=
  match a with
  | some s => if s != "" then some s else b
  | none => b

/-- What the `verify-token` handler did: the response it sent and the arguments with
which it called `jwt.verify`, in order. -/
structure TokenCheck where
  response : Response
  verified : List String

/-- The handler `router.get('/verify-token')`. `jwtVerify` is `jwt.verify(·, JWT_SECRET)`,
with `none` for a thrown error; `authorization` and `Authorization` are the two header
lookups of the handler. -/
def verifyToken (jwtVerify : String → Option SessionToken)
    (authorization Authorization : Option String) : TokenCheck :=
  match orElseHeader authorization Authorization with
  | none => ⟨⟨401, .error "Unauthorized"⟩, []⟩
  | some authHeader =>
    if authHeader = "" then ⟨⟨401, .error "Unauthorized"⟩, []⟩ else
    match split authHeader with
    | [_, token] =>
      match jwtVerify token with
      | some payload => ⟨⟨200, .session payload⟩, [token]⟩
      | none => ⟨⟨401, .error "Invalid or expired token"⟩, [token]⟩
    | _ => ⟨⟨401, .error "Unauthorized"⟩, []⟩

/-! ## Pagination of `GET /contacts` and `GET /registrations` -/

/-- A JavaScript number as the pagination code sees it: `NaN`, an integer of magnitude at
most `2 ^ 53` (the range in which integer arithmetic on doubles is exact), or `untracked`
for any result outside that range, which JavaScript rounds to a double or turns into an
infinity and whose value is not followed here. -/
inductive JsNumber where
  | nan
  | int (n : Int)
  | untracked
  deriving DecidableEq, Repr

/-- The number with the exact integer value `n`, when that value is in the exact range. -/
def exactInt (n : Int) : JsNumber :=
  if n.natAbs ≤ 9007199254740992 then .int n else .untracked

/-- The value of a run of decimal digits. -/
def digitsValue (ds : List Char) : Nat :=
  ds.foldl (fun acc c => acc * 10 + (c.toNat - '0'.toNat)) 0

/-- The call `parseInt(s, 10)`: leading white space is skipped, one sign is read, then the
longest run of decimal digits; `NaN` when that run is empty. -/
def parseInt (s : String) : JsNumber :=
  let body := s.data.dropWhile isJsWhiteSpace
  let (neg, rest) :=
    match body with
    | '-' :: cs => (true, cs)
    | '+' :: cs => (false, cs)
    | cs => (false, cs)
  let ds := rest.takeWhile Char.isDigit
  if ds.isEmpty then .nan
  else if neg then exactInt (-(digitsValue ds : Int)) else exactInt (digitsValue ds)

/-- The function `Math.max` on two numbers: `NaN` if either is. -/
def mathMax : JsNumber → JsNumber → JsNumber
  | .int a, .int b => .int (max a b)
  | .nan, _ => .nan
  | _, .nan => .nan
  | _, _ => .untracked

/-- The function `Math.min` on two numbers: `NaN` if either is. -/
def mathMin : JsNumber → JsNumber → JsNumber
  | .int a, .int b => .int (min a b)
  | .nan, _ => .nan
  | _, .nan => .nan
  | _, _ => .untracked

/-- The expression `q || dflt` on a query parameter that is absent or a string. -/
def orDefault (q : Option String) (dflt : String) : String :=
  match q with
  | some s => if s != "" then s else dflt
  | none => dflt

/-- The effective page: `Math.max(parseInt(req.query.page || '1', 10), 1)`. -/
def pageOf (page : Option String) : JsNumber :=
  mathMax (parseInt (orDefault page "1")) (.int 1)

/-- The effective limit:
`Math.min(Math.max(parseInt(req.query.limit || '20', 10), 1), 100)`. -/
def limitOf (limit : Option String) : JsNumber :=
  mathMin (mathMax (parseInt (orDefault limit "20")) (.int 1)) (.int 100)

/-- The difference `a - b` of two numbers. -/
def jsSub : JsNumber → JsNumber → JsNumber
  | .int a, .int b => exactInt (a - b)
  | .nan, _ => .nan
  | _, .nan => .nan
  | _, _ => .untracked

/-- The product `a * b` of two numbers. -/
def jsMul : JsNumber → JsNumber → JsNumber
  | .int a, .int b => exactInt (a * b)
  | .nan, _ => .nan
  | _, .nan => .nan
  | _, _ => .untracked

/-- The expression `(page - 1) * limit`. -/
def skipOf (page limit : JsNumber) : JsNumber :=
  jsMul (jsSub page (.int 1)) limit

/-! ## A concrete configuration -/

/-- Lower-casing of the ASCII letters, which is what `toLowerCase` does on ASCII strings. -/
def asciiLower (s : String) : String :=
  String.mk (s.data.map Char.toLower)

/-- A development configuration whose admin address is `admin@example.com`. -/
def exampleEnv : Env :=
  { ADMIN_EMAIL := "admin@example.com", toLowerCase := asciiLower, production := false }

/-! ## Lemmas on the example configuration -/

/-- ASCII lower-casing maps only the empty string to the empty string, so for it the
hypothesis that the lower-cased admin email differs from the lower-cased empty string
says that `ADMIN_EMAIL` is not empty. -/
theorem asciiLower_eq_empty {s : String} (h : asciiLower s = asciiLower "") : s = "" := by
  have hd : s.data.map Char.toLower = [] := by
    have := congrArg String.data h
    simpa [asciiLower] using this
  have : s.data = [] := List.map_eq_nil_iff.1 hd
  exact String.ext this

/-! ## Lemmas on the store -/

theorem findOne_email {store : Store} {email : String} {a : Admin}
    (h : findOne store email = some a) : a.email = email := by
  have := List.find?_some h
  simpa using this

theorem findOne_save (store : Store) (doc : Admin) :
    findOne (save store doc) doc.email = some doc := by
  induction store with
  | nil => simp [save, findOne]
  | cons a rest ih =>
    unfold save
    by_cases h : a.email = doc.email
    · simp [h, findOne]
    · simp only [beq_iff_eq, h, if_false]
      simp only [findOne] at ih ⊢
      rw [List.find?_cons_of_neg _ (by simpa using h)]
      exact ih

/-! ## Lemmas on strings -/

theorem mem_dropWhile_of_not {α : Type} (p : α → Bool) (l : List α) (c : α)
    (hc : c ∈ l) (hp : p c = false) : c ∈ l.dropWhile p := by
  induction l with
  | nil => cases hc
  | cons a t ih =>
    by_cases ha : p a = true
    · rw [List.dropWhile_cons_of_pos ha]
      rcases List.mem_cons.1 hc with rfl | h
      · rw [hp] at ha; cases ha
      · exact ih h
    · rw [List.dropWhile_cons_of_neg ha]; exact hc

theorem trim_ne_empty {s : String} {c : Char} (hc : c ∈ s.data)
    (hw : isJsWhiteSpace c = false) : trim s ≠ "" := by
  intro h
  have h1 : c ∈ s.data.dropWhile isJsWhiteSpace := mem_dropWhile_of_not _ _ _ hc hw
  have h2 : c ∈ (s.data.dropWhile isJsWhiteSpace).reverse.dropWhile isJsWhiteSpace :=
    mem_dropWhile_of_not _ _ _ (List.mem_reverse.2 h1) hw
  have h3 : ((s.data.dropWhile isJsWhiteSpace).reverse.dropWhile isJsWhiteSpace).reverse = [] := by
    have := congrArg String.data h
    simpa [trim] using this
  rw [List.reverse_eq_nil_iff] at h3
  rw [h3] at h2
  cases h2

theorem trim_empty : trim "" = "" := by decide

theorem ne_empty_of_trim_ne_empty {s : String} (h : trim s ≠ "") : s ≠ "" := by
  rintro rfl
  exact h trim_empty


theorem digitChar_isDigit (d : Nat) (h : d < 10) : (Nat.digitChar d).isDigit = true := by
  interval_cases d <;> decide

theorem toDigitsCore_step (fuel n : Nat) (ds : List Char) :
    Nat.toDigitsCore 10 (fuel + 1) n ds =
      if n / 10 = 0 then Nat.digitChar (n % 10) :: ds
      else Nat.toDigitsCore 10 fuel (n / 10) (Nat.digitChar (n % 10) :: ds) := by
  simp [Nat.toDigitsCore]

theorem toDigitsCore_ne_nil (fuel n : Nat) (ds : List Char) :
    Nat.toDigitsCore 10 (fuel + 1) n ds ≠ [] := by
  induction fuel generalizing n ds with
  | zero => rw [toDigitsCore_step]; split <;> simp [Nat.toDigitsCore]
  | succ k ih =>
    rw [toDigitsCore_step]
    split
    · simp
    · exact ih _ _

theorem toDigitsCore_all_digit (fuel n : Nat) (ds : List Char)
    (hds : ∀ c ∈ ds, c.isDigit = true) :
    ∀ c ∈ Nat.toDigitsCore 10 fuel n ds, c.isDigit = true := by
  induction fuel generalizing n ds with
  | zero => simpa [Nat.toDigitsCore] using hds
  | succ k ih =>
    have hd : ∀ c ∈ Nat.digitChar (n % 10) :: ds, c.isDigit = true := by
      intro c hc
      rcases List.mem_cons.1 hc with rfl | h
      · exact digitChar_isDigit _ (Nat.mod_lt _ (by decide))
      · exact hds c h
    rw [toDigitsCore_step]
    split
    · exact hd
    · exact ih _ _ hd

theorem repr_six_digits (n : Nat) (lo : 100000 ≤ n) (hi : n ≤ 999999) :
    Nat.repr n = String.mk [Nat.digitChar (n / 100000 % 10), Nat.digitChar (n / 10000 % 10),
      Nat.digitChar (n / 1000 % 10), Nat.digitChar (n / 100 % 10),
      Nat.digitChar (n / 10 % 10), Nat.digitChar (n % 10)] := by
  obtain ⟨f, hf⟩ : ∃ f, n + 1 = f + 6 := ⟨n - 5, by omega⟩
  have e1 : n / 10 / 10 = n / 100 := by omega
  have e2 : n / 100 / 10 = n / 1000 := by omega
  have e3 : n / 1000 / 10 = n / 10000 := by omega
  have e4 : n / 10000 / 10 = n / 100000 := by omega
  have z0 : ¬ n / 10 = 0 := by omega
  have z1 : ¬ n / 100 = 0 := by omega
  have z2 : ¬ n / 1000 = 0 := by omega
  have z3 : ¬ n / 10000 = 0 := by omega
  have z4 : ¬ n / 100000 = 0 := by omega
  have z5 : n / 100000 / 10 = 0 := by omega
  simp only [Nat.repr, Nat.toDigits, hf, toDigitsCore_step, e1, e2, e3, e4, z0, z1, z2, z3, z4, z5,
    if_true, if_false, List.asString]


theorem timespan_30d : timespan "30d" = some 2592000 := by decide
theorem timespan_6h : timespan "6h" = some 21600 := by decide

theorem jwtSign_expiresIn (id : Nat) (email : String) (b : Bool) (now : Nat) :
    jwtSign id email (if b then "30d" else "6h") now =
      some { id := id, email := email, iat := now / 1000,
             exp := now / 1000 + (if b then 2592000 else 21600) } := by
  cases b <;> simp [jwtSign, timespan_30d, timespan_6h]

/-- The response and store of `verify-otp` once the required-field check and the email
check have passed. -/
theorem verifyOtp_checked (env : Env) (store : Store) (body : VerifyBody) (now : Nat)
    (e code : String) (he : body.email = .string e) (hte : trim e ≠ "")
    (ho : body.otp.truthy = true) (hs : body.otp.toJsString = some code)
    (htc : trim code ≠ "")
    (hm : env.toLowerCase (trim e) = env.toLowerCase env.ADMIN_EMAIL) :
    verifyOtp env store body now =
      match findOne store env.ADMIN_EMAIL with
      | none => (⟨400, .error "Admin not found"⟩, store)
      | some admin =>
        if otpUnset admin.otp || admin.otpExpires.isNone || isAfter now admin.otpExpires then
          (⟨400, .error "OTP expired or not requested"⟩, store)
        else if admin.otp ≠ some code then (⟨400, .error "Invalid OTP"⟩, store)
        else
          (⟨200, .token ⟨admin._id, admin.email, now / 1000,
              now / 1000 + (if body.remember.truthy then 2592000 else 21600)⟩⟩,
            save store { admin with otp := none, otpExpires := none }) := by
  have hne : e ≠ "" := ne_empty_of_trim_ne_empty hte
  have h1 : (JsValue.string e).truthy = true := by simp [JsValue.truthy, hne]
  unfold verifyOtp
  simp only [he, h1, ho, hs, hte, htc, hm, jwtSign_expiresIn]
  simp


/-- A `verify-otp` request that fails the required-field check or the email check is
answered with an error and leaves the store as it was. -/
theorem verifyOtp_unchecked (env : Env) (store : Store) (body : VerifyBody) (now : Nat)
    (h : ¬ ∃ e code, body.email = .string e ∧ trim e ≠ "" ∧ body.otp.truthy = true ∧
      body.otp.toJsString = some code ∧ trim code ≠ "" ∧
      env.toLowerCase (trim e) = env.toLowerCase env.ADMIN_EMAIL) :
    (verifyOtp env store body now).2 = store ∧ (verifyOtp env store body now).1.status ≠ 200 := by
  unfold verifyOtp
  cases he : body.email with
  | string e =>
    by_cases h2 : trim e = ""
    · by_cases h1 : e = "" <;> simp [JsValue.truthy, h1, h2]
    · have h1 : (JsValue.string e).truthy = true := by
        simp [JsValue.truthy, ne_empty_of_trim_ne_empty h2]
      by_cases ho : body.otp.truthy = true
      · cases hs : body.otp.toJsString with
        | none => simp [h1, h2, ho, serverError]
        | some code =>
          by_cases h3 : trim code = ""
          · simp [h1, h2, ho, h3]
          · by_cases hm : env.toLowerCase (trim e) = env.toLowerCase env.ADMIN_EMAIL
            · exact absurd ⟨e, code, he, h2, ho, hs, h3, hm⟩ h
            · simp [h1, h2, ho, h3, hm, forbidden]
      · simp [h1, h2, ho]
  | undefined => simp [JsValue.truthy, serverError]
  | null => simp [JsValue.truthy, serverError]
  | bool b => cases b <;> simp [JsValue.truthy, serverError]
  | number n hs => by_cases hn : n = 0 <;> simp [JsValue.truthy, serverError, hn]
  | other str => simp [JsValue.truthy, serverError]

/-! ## Lemmas on binary64 rounding -/

theorem roundHalfEven_le {t : ℚ} {k : Int} (h : t ≤ k) : roundHalfEven t ≤ k := by
  have hf : ⌊t⌋ ≤ k := Int.floor_le_floor h |>.trans_eq (Int.floor_intCast k)
  unfold roundHalfEven
  rcases lt_or_eq_of_le hf with hlt | heq
  · split_ifs <;> omega
  · have hfl : (⌊t⌋ : ℚ) ≤ t := Int.floor_le t
    have : t - ⌊t⌋ < 1 / 2 := by rw [heq]; linarith
    rw [if_pos this]; exact hf

theorem le_roundHalfEven {t : ℚ} {k : Int} (h : (k : ℚ) ≤ t) : k ≤ roundHalfEven t := by
  have hf : k ≤ ⌊t⌋ := Int.le_floor.2 h
  unfold roundHalfEven
  split_ifs <;> omega

theorem roundHalfEven_le_of_lt_half {t : ℚ} {k : Int} (h : t < k + 1 / 2) :
    roundHalfEven t ≤ k := by
  have hf : ⌊t⌋ ≤ k := by
    have : ⌊t⌋ < k + 1 := Int.floor_lt.2 (by push_cast; linarith)
    omega
  unfold roundHalfEven
  rcases lt_or_eq_of_le hf with hlt | heq
  · split_ifs <;> omega
  · have : t - ⌊t⌋ < 1 / 2 := by rw [heq]; linarith
    rw [if_pos this]; exact hf


theorem two_zpow_pos (q : Int) : (0 : ℚ) < 2 ^ q := zpow_pos (by norm_num) q

/-- A multiple of a coarser power of two is a multiple of a finer one. -/
theorem grid_refine (k : Int) {q j : Int} (h : q ≤ j) :
    ∃ K : Int, (k : ℚ) * 2 ^ j = (K : ℚ) * 2 ^ q := by
  obtain ⟨n, hn⟩ := Int.eq_ofNat_of_zero_le (sub_nonneg.2 h)
  refine ⟨k * 2 ^ n, ?_⟩
  have hq : j = (n : Int) + q := by omega
  rw [hq, zpow_add₀ (by norm_num : (2 : ℚ) ≠ 0), zpow_natCast]
  push_cast
  ring

theorem roundDouble_le {x : ℚ} {k j : Int} (hq : ulpExponent x ≤ j)
    (h : x ≤ k * 2 ^ j) : roundDouble x ≤ k * 2 ^ j := by
  obtain ⟨K, hK⟩ := grid_refine k hq
  rw [hK] at h ⊢
  unfold roundDouble
  have hpos := two_zpow_pos (ulpExponent x)
  have ht : x / 2 ^ ulpExponent x ≤ K := (div_le_iff₀ hpos).2 h
  have := roundHalfEven_le ht
  have hc : (roundHalfEven (x / 2 ^ ulpExponent x) : ℚ) ≤ K := by exact_mod_cast this
  exact mul_le_mul_of_nonneg_right hc hpos.le

theorem le_roundDouble {x : ℚ} {k j : Int} (hq : ulpExponent x ≤ j)
    (h : (k : ℚ) * 2 ^ j ≤ x) : (k : ℚ) * 2 ^ j ≤ roundDouble x := by
  obtain ⟨K, hK⟩ := grid_refine k hq
  rw [hK] at h ⊢
  unfold roundDouble
  have hpos := two_zpow_pos (ulpExponent x)
  have ht : (K : ℚ) ≤ x / 2 ^ ulpExponent x := (le_div_iff₀ hpos).2 h
  have := le_roundHalfEven ht
  have hc : (K : ℚ) ≤ roundHalfEven (x / 2 ^ ulpExponent x) := by exact_mod_cast this
  exact mul_le_mul_of_nonneg_right hc hpos.le

theorem roundDouble_le_of_lt_half {x : ℚ} {k : Int}
    (h : x < (k + 1 / 2) * 2 ^ ulpExponent x) : roundDouble x ≤ k * 2 ^ ulpExponent x := by
  unfold roundDouble
  have hpos := two_zpow_pos (ulpExponent x)
  have ht : x / 2 ^ ulpExponent x < k + 1 / 2 := (div_lt_iff₀ hpos).2 h
  have := roundHalfEven_le_of_lt_half ht
  have hc : (roundHalfEven (x / 2 ^ ulpExponent x) : ℚ) ≤ k := by exact_mod_cast this
  exact mul_le_mul_of_nonneg_right hc hpos.le

/-- A value on the grid of its own binade is a double: rounding leaves it unchanged. -/
theorem roundDouble_eq_self {x : ℚ} {k j : Int} (hq : ulpExponent x ≤ j)
    (h : x = k * 2 ^ j) : roundDouble x = x :=
  le_antisymm (by rw [h] at hq ⊢; exact roundDouble_le hq le_rfl)
    (by rw [h] at hq ⊢; exact le_roundDouble hq le_rfl)

theorem ulpExponent_le {x : ℚ} {E : Int} (hE : -1022 ≤ E) (hx : 0 < x)
    (h : x < 2 ^ (E + 1)) : ulpExponent x ≤ E - 52 := by
  have hlog : Int.log 2 x < E + 1 := by
    have := (Int.lt_zpow_iff_log_lt (R := ℚ) (b := 2) (by norm_num) hx).1 (by exact_mod_cast h)
    exact this
  unfold ulpExponent
  rw [abs_of_pos hx]
  omega

theorem ulpExponent_eq {x : ℚ} {E : Int} (hE : -1022 ≤ E) (hlo : 2 ^ E ≤ x)
    (h : x < 2 ^ (E + 1)) : ulpExponent x = E - 52 := by
  have hx : 0 < x := lt_of_lt_of_le (two_zpow_pos E) hlo
  have hlog : Int.log 2 x < E + 1 :=
    (Int.lt_zpow_iff_log_lt (R := ℚ) (b := 2) (by norm_num) hx).1 (by exact_mod_cast h)
  have hlog2 : E ≤ Int.log 2 x :=
    (Int.zpow_le_iff_le_log (R := ℚ) (b := 2) (by norm_num) hx).1 (by exact_mod_cast hlo)
  unfold ulpExponent
  rw [abs_of_pos hx]
  omega

theorem roundDouble_zero : roundDouble 0 = 0 := by
  simp [roundDouble, roundHalfEven]


theorem two_zpow_neg (n : Nat) : (2 : ℚ) ^ (-(n : Int)) = 1 / 2 ^ n := by
  rw [zpow_neg, zpow_natCast, one_div]

/-- The largest double below 1 is `1 - 2 ^ (-53)`. -/
theorem double_lt_one_le {r : ℚ} (hd : roundDouble r = r) (h1 : r < 1) :
    r ≤ 1 - 1 / 2 ^ 53 := by
  by_cases hhalf : r < 1 / 2
  · have : (1 : ℚ) / 2 ^ 53 ≤ 1 / 2 := by norm_num
    linarith
  · have hlo : (2 : ℚ) ^ (-1 : Int) ≤ r := by
      rw [zpow_neg_one]; norm_num; linarith [not_lt.1 hhalf]
    have hq : ulpExponent r = -53 := by
      have := ulpExponent_eq (E := -1) (by norm_num) hlo (by simpa using h1)
      simpa using this
    have h2 : (2 : ℚ) ^ (-53 : Int) = 1 / 2 ^ 53 := two_zpow_neg 53
    unfold roundDouble at hd
    rw [hq, h2] at hd
    generalize roundHalfEven (r / (1 / 2 ^ 53)) = m at hd
    have hm : (m : ℚ) < 2 ^ 53 := by
      have : (m : ℚ) * (1 / 2 ^ 53) < 1 := by rw [hd]; exact h1
      have hp : (0 : ℚ) < 2 ^ 53 := by positivity
      have := mul_lt_mul_of_pos_right this hp
      simpa [mul_assoc] using this
    have hm' : m ≤ 2 ^ 53 - 1 := by
      have : m < 2 ^ 53 := by exact_mod_cast hm
      omega
    have hm'' : (m : ℚ) ≤ 2 ^ 53 - 1 := by exact_mod_cast hm'
    rw [← hd]
    have hp : (0 : ℚ) < 1 / 2 ^ 53 := by positivity
    calc (m : ℚ) * (1 / 2 ^ 53) ≤ (2 ^ 53 - 1) * (1 / 2 ^ 53) :=
          mul_le_mul_of_nonneg_right hm'' hp.le
      _ = 1 - 1 / 2 ^ 53 := by norm_num

/-- The product `Math.random() * 900000` is a double between 0 and `900000 - 2 ^ (-33)`. -/
theorem product_bounds {r : ℚ} (hd : roundDouble r = r) (h0 : 0 ≤ r) (h1 : r < 1) :
    0 ≤ roundDouble (r * 900000) ∧ roundDouble (r * 900000) ≤ 900000 - 1 / 2 ^ 33 := by
  have hr := double_lt_one_le hd h1
  have hx0 : 0 ≤ r * 900000 := by positivity
  have hxs : r * 900000 ≤ (1 - 1 / 2 ^ 53) * 900000 :=
    mul_le_mul_of_nonneg_right hr (by norm_num)
  rcases eq_or_lt_of_le hx0 with hz | hpos
  · rw [← hz, roundDouble_zero]
    norm_num
  · have hlt20 : r * 900000 < 2 ^ ((19 : Int) + 1) := by
      have : (2 : ℚ) ^ ((19 : Int) + 1) = 1048576 := by norm_num
      rw [this]
      have : ((1 : ℚ) - 1 / 2 ^ 53) * 900000 < 1048576 := by norm_num
      linarith
    have hq19 : ulpExponent (r * 900000) ≤ -33 := by
      have := ulpExponent_le (E := 19) (by norm_num) hpos hlt20
      simpa using this
    have h33 : (2 : ℚ) ^ (-33 : Int) = 1 / 2 ^ 33 := two_zpow_neg 33
    constructor
    · have := le_roundDouble (x := r * 900000) (k := 0) (j := -33) hq19 (by simpa using hx0)
      simpa using this
    · by_cases hbig : (2 : ℚ) ^ (19 : Int) ≤ r * 900000
      · have hq : ulpExponent (r * 900000) = -33 := by
          have := ulpExponent_eq (E := 19) (by norm_num) hbig hlt20
          simpa using this
        have := roundDouble_le_of_lt_half (x := r * 900000) (k := 900000 * 2 ^ 33 - 1) (by
          rw [hq, h33]
          push_cast
          have : ((1 : ℚ) - 1 / 2 ^ 53) * 900000 <
              (900000 * 2 ^ 33 - 1 + 1 / 2) * (1 / 2 ^ 33) := by norm_num
          linarith)
        rw [hq, h33] at this
        have he : (((900000 * 2 ^ 33 - 1 : Int) : ℚ)) * (1 / 2 ^ 33) = 900000 - 1 / 2 ^ 33 := by
          push_cast; norm_num
        rw [he] at this
        exact this
      · have hq18 : ulpExponent (r * 900000) ≤ -34 := by
          have := ulpExponent_le (E := 18) (by norm_num) hpos (by simpa using not_le.1 hbig)
          simpa using this
        have := roundDouble_le (x := r * 900000) (k := 1) (j := 19) (by omega)
          (by simpa using (not_le.1 hbig).le)
        have h19 : ((1 : Int) : ℚ) * 2 ^ (19 : Int) = 524288 := by norm_num
        rw [h19] at this
        have : (524288 : ℚ) ≤ 900000 - 1 / 2 ^ 33 := by norm_num
        linarith

/-- The double sum `100000 + Math.random() * 900000` lies in `[100000, 1000000)`. -/
theorem sum_bounds {r : ℚ} (hd : roundDouble r = r) (h0 : 0 ≤ r) (h1 : r < 1) :
    100000 ≤ roundDouble (100000 + roundDouble (r * 900000)) ∧
      roundDouble (100000 + roundDouble (r * 900000)) < 1000000 := by
  obtain ⟨hp0, hp1⟩ := product_bounds hd h0 h1
  set p := roundDouble (r * 900000) with hp
  have hpos : (0 : ℚ) < 100000 + p := by linarith
  have hlt20 : 100000 + p < 2 ^ ((19 : Int) + 1) := by
    have : (2 : ℚ) ^ ((19 : Int) + 1) = 1048576 := by norm_num
    rw [this]
    have : (0 : ℚ) < 1 / 2 ^ 33 := by positivity
    linarith
  have hq : ulpExponent (100000 + p) ≤ -33 := by
    have := ulpExponent_le (E := 19) (by norm_num) hpos hlt20
    simpa using this
  have h33 : (2 : ℚ) ^ (-33 : Int) = 1 / 2 ^ 33 := two_zpow_neg 33
  constructor
  · have := le_roundDouble (x := 100000 + p) (k := 100000) (j := 0) (by omega)
      (by simpa using hp0)
    simpa using this
  · have := roundDouble_le (x := 100000 + p) (k := 1000000 * 2 ^ 33 - 1) (j := -33) hq (by
      rw [h33]; push_cast
      have : ((1000000 : ℚ) * 2 ^ 33 - 1) * (1 / 2 ^ 33) = 1000000 - 1 / 2 ^ 33 := by norm_num
      linarith)
    rw [h33] at this
    have he : (((1000000 * 2 ^ 33 - 1 : Int) : ℚ)) * (1 / 2 ^ 33) = 1000000 - 1 / 2 ^ 33 := by
      push_cast; norm_num
    rw [he] at this
    have : (0 : ℚ) < 1 / 2 ^ 33 := by positivity
    linarith

theorem otpNumber_bounds {r : ℚ} (hd : roundDouble r = r) (h0 : 0 ≤ r) (h1 : r < 1) :
    100000 ≤ otpNumber r ∧ otpNumber r < 1000000 := by
  obtain ⟨hlo, hhi⟩ := sum_bounds hd h0 h1
  unfold otpNumber
  exact ⟨Int.le_floor.2 (by exact_mod_cast hlo), Int.floor_lt.2 (by exact_mod_cast hhi)⟩


/-- Every positive integer below `2 ^ 53` is a double. -/
theorem roundDouble_intCast (n : Int) (h0 : 0 < n) (h : n < 2 ^ 53) :
    roundDouble (n : ℚ) = n := by
  have hpos : (0 : ℚ) < n := by exact_mod_cast h0
  have hlt : (n : ℚ) < 2 ^ ((52 : Int) + 1) := by
    have : (2 : ℚ) ^ ((52 : Int) + 1) = ((2 ^ 53 : Int) : ℚ) := by norm_num
    rw [this]
    exact_mod_cast h
  have hq : ulpExponent (n : ℚ) ≤ 0 := by
    have := ulpExponent_le (E := 52) (by norm_num) hpos hlt
    simpa using this
  exact roundDouble_eq_self (k := n) (j := 0) hq (by simp)

theorem roundDouble_half : roundDouble (1 / 2) = 1 / 2 := by
  have hq : ulpExponent (1 / 2 : ℚ) ≤ -1 := by
    have := ulpExponent_le (x := 1 / 2) (E := 0) (by norm_num) (by norm_num) (by norm_num)
    omega
  exact roundDouble_eq_self (k := 1) (j := -1) hq (by norm_num)

theorem otpNumber_zero : otpNumber 0 = 100000 := by
  unfold otpNumber
  rw [zero_mul, roundDouble_zero, add_zero]
  have := roundDouble_intCast 100000 (by norm_num) (by norm_num)
  push_cast at this
  rw [this]
  norm_num

theorem otpNumber_half : otpNumber (1 / 2) = 550000 := by
  unfold otpNumber
  have h1 : (1 / 2 : ℚ) * 900000 = 450000 := by norm_num
  have h2 := roundDouble_intCast 450000 (by norm_num) (by norm_num)
  have h3 := roundDouble_intCast 550000 (by norm_num) (by norm_num)
  push_cast at h2 h3
  rw [h1, h2]
  have h4 : (100000 : ℚ) + 450000 = 550000 := by norm_num
  rw [h4, h3]
  norm_num

theorem roundHalfEven_eq_of_lt_half {t : ℚ} {k : Int} (hk : (k : ℚ) ≤ t) (h : t < k + 1 / 2) :
    roundHalfEven t = k :=
  le_antisymm (roundHalfEven_le_of_lt_half h) (le_roundHalfEven hk)

/-- A tie goes to the even neighbour: here upwards, from an odd floor. -/
theorem roundHalfEven_tie_odd {t : ℚ} {k : Int} (ht : t = k + 1 / 2) (hodd : k % 2 = 1) :
    roundHalfEven t = k + 1 := by
  have hf : ⌊t⌋ = k := by
    rw [Int.floor_eq_iff, ht]
    constructor <;> norm_num
  unfold roundHalfEven
  rw [hf, ht]
  have h1 : ¬ ((k : ℚ) + 1 / 2 - k < 1 / 2) := by norm_num
  have h2 : ¬ ((1 : ℚ) / 2 < k + 1 / 2 - k) := by norm_num
  rw [if_neg h1, if_neg h2, if_neg (by omega)]

/-- The draw `0.5 - 2 ^ (-54)`, a double: the product rounds down to `450000 - 2 ^ (-34)`,
the sum `550000 - 2 ^ (-34)` is a tie and rounds up to `550000`. -/
theorem otpNumber_tie : otpNumber (1 / 2 - 1 / 2 ^ 54) = 550000 := by
  have h34 : (2 : ℚ) ^ (-34 : Int) = 1 / 2 ^ 34 := two_zpow_neg 34
  have h33 : (2 : ℚ) ^ (-33 : Int) = 1 / 2 ^ 33 := two_zpow_neg 33
  have hq1 : ulpExponent ((1 / 2 - 1 / 2 ^ 54 : ℚ) * 900000) = -34 := by
    have := ulpExponent_eq (x := (1 / 2 - 1 / 2 ^ 54 : ℚ) * 900000) (E := 18) (by norm_num)
      (by norm_num) (by norm_num)
    simpa using this
  have hp : roundDouble ((1 / 2 - 1 / 2 ^ 54 : ℚ) * 900000) = 450000 - 1 / 2 ^ 34 := by
    unfold roundDouble
    rw [hq1, h34, roundHalfEven_eq_of_lt_half (k := 450000 * 2 ^ 34 - 1) (by norm_num)
      (by norm_num)]
    norm_num
  have hq2 : ulpExponent (100000 + (450000 - 1 / 2 ^ 34) : ℚ) = -33 := by
    have := ulpExponent_eq (x := (100000 + (450000 - 1 / 2 ^ 34) : ℚ)) (E := 19) (by norm_num)
      (by norm_num) (by norm_num)
    simpa using this
  have hs : roundDouble (100000 + (450000 - 1 / 2 ^ 34) : ℚ) = 550000 := by
    unfold roundDouble
    rw [hq2, h33, roundHalfEven_tie_odd (k := 550000 * 2 ^ 33 - 1) (by norm_num) (by norm_num)]
    norm_num
  unfold otpNumber
  rw [hp, hs]
  norm_num

theorem roundHalfEven_eq_of_gt_half {t : ℚ} {k : Int} (h : (k : ℚ) - 1 / 2 < t)
    (hk : t ≤ k) : roundHalfEven t = k := by
  refine le_antisymm (roundHalfEven_le hk) ?_
  rcases eq_or_lt_of_le hk with heq | hlt
  · exact le_roundHalfEven heq.ge
  · have hf : ⌊t⌋ = k - 1 := by
      rw [Int.floor_eq_iff]
      push_cast
      constructor <;> linarith
    unfold roundHalfEven
    rw [hf]
    have h1 : ¬ (t - ((k - 1 : Int) : ℚ) < 1 / 2) := by push_cast; linarith
    have h2 : (1 : ℚ) / 2 < t - ((k - 1 : Int) : ℚ) := by push_cast; linarith
    rw [if_neg h1, if_pos h2]
    omega

/-- The draw `0.5 - 2 ^ (-54)` is a double. -/
theorem roundDouble_tie_draw : roundDouble (1 / 2 - 1 / 2 ^ 54) = 1 / 2 - 1 / 2 ^ 54 := by
  have hq : ulpExponent (1 / 2 - 1 / 2 ^ 54 : ℚ) ≤ -54 := by
    have := ulpExponent_le (x := (1 / 2 - 1 / 2 ^ 54 : ℚ)) (E := -2) (by norm_num)
      (by norm_num) (by norm_num)
    omega
  have h54 : (2 : ℚ) ^ (-54 : Int) = 1 / 2 ^ 54 := two_zpow_neg 54
  refine roundDouble_eq_self (k := 2 ^ 53 - 1) (j := -54) hq ?_
  rw [h54]
  push_cast
  norm_num

/-- The hypothesis that the draw is a double is needed: `1 - 2 ^ (-60)` lies in `[0, 1)`, is
not a double, and the same computation on it gives `1000000`. -/
theorem otpNumber_not_double :
    roundDouble (1 - 1 / 2 ^ 60) ≠ 1 - 1 / 2 ^ 60 ∧ otpNumber (1 - 1 / 2 ^ 60) = 1000000 := by
  have h33 : (2 : ℚ) ^ (-33 : Int) = 1 / 2 ^ 33 := two_zpow_neg 33
  have h53 : (2 : ℚ) ^ (-53 : Int) = 1 / 2 ^ 53 := two_zpow_neg 53
  constructor
  · have hq : ulpExponent (1 - 1 / 2 ^ 60 : ℚ) = -53 := by
      have := ulpExponent_eq (x := (1 - 1 / 2 ^ 60 : ℚ)) (E := -1) (by norm_num)
        (by norm_num) (by norm_num)
      simpa using this
    unfold roundDouble
    rw [hq, h53, roundHalfEven_eq_of_gt_half (k := 2 ^ 53) (by norm_num) (by norm_num)]
    norm_num
  · have hq1 : ulpExponent ((1 - 1 / 2 ^ 60 : ℚ) * 900000) = -33 := by
      have := ulpExponent_eq (x := (1 - 1 / 2 ^ 60 : ℚ) * 900000) (E := 19) (by norm_num)
        (by norm_num) (by norm_num)
      simpa using this
    have hp : roundDouble ((1 - 1 / 2 ^ 60 : ℚ) * 900000) = 900000 := by
      unfold roundDouble
      rw [hq1, h33, roundHalfEven_eq_of_gt_half (k := 900000 * 2 ^ 33) (by norm_num)
        (by norm_num)]
      norm_num
    have hs := roundDouble_intCast 1000000 (by norm_num) (by norm_num)
    push_cast at hs
    unfold otpNumber
    rw [hp]
    have h4 : (100000 : ℚ) + 900000 = 1000000 := by norm_num
    rw [h4, hs]
    norm_num

/-! ## Lemmas on the generated code -/

theorem isDigit_not_whiteSpace (c : Char) (h : c.isDigit = true) : isJsWhiteSpace c = false := by
  have h1 : 48 ≤ c.toNat ∧ c.toNat ≤ 57 := by
    simp only [Char.isDigit, Bool.and_eq_true, decide_eq_true_eq] at h
    exact ⟨h.1, h.2⟩
  simp only [isJsWhiteSpace, Bool.or_eq_false_iff, Bool.and_eq_false_iff, beq_eq_false_iff_ne,
    decide_eq_false_iff_not]
  omega

theorem trim_natRepr_ne_empty (n : Nat) : trim (Nat.repr n) ≠ "" := by
  have hne : Nat.toDigits 10 n ≠ [] := toDigitsCore_ne_nil n n []
  obtain ⟨c, cs, hcs⟩ := List.exists_cons_of_ne_nil hne
  have hmem : c ∈ Nat.toDigits 10 n := by rw [hcs]; exact List.mem_cons_self _ _
  have hd : c.isDigit = true := toDigitsCore_all_digit (n + 1) n [] (by simp) c hmem
  exact trim_ne_empty (s := Nat.repr n) (c := c) (by simpa [Nat.repr] using hmem)
    (isDigit_not_whiteSpace c hd)

theorem trim_intToString_ne_empty (n : Int) : trim (toString n) ≠ "" := by
  cases n with
  | ofNat m => exact trim_natRepr_ne_empty m
  | negSucc m =>
    refine trim_ne_empty (c := '-') ?_ (by decide)
    show '-' ∈ ("-" ++ toString (Nat.succ m)).data
    simp

theorem trim_generateOtp_ne_empty (r : ℚ) : trim (generateOtp r) ≠ "" :=
  trim_intToString_ne_empty _

/-! ## Lemmas on `request-otp` -/

/-- The store written by an accepted `request-otp` call. -/
theorem requestOtp_accepted (env : Env) (store : Store) (e : String) (ctx : RequestCtx)
    (hte : trim e ≠ "")
    (hm : env.toLowerCase (trim e) = env.toLowerCase env.ADMIN_EMAIL) :
    ∃ admin : Admin, admin.email = env.ADMIN_EMAIL ∧
      (requestOtp env store (.string e) ctx).2 =
        save store { admin with otp := some (generateOtp ctx.random),
                                otpExpires := some (ctx.now + 300000) } := by
  have h1 : (JsValue.string e).truthy = true := by
    simp [JsValue.truthy, ne_empty_of_trim_ne_empty hte]
  cases hf : findOne store env.ADMIN_EMAIL with
  | none =>
    refine ⟨⟨ctx.newId, env.ADMIN_EMAIL, none, none⟩, rfl, ?_⟩
    unfold requestOtp
    simp only [h1, hte, hm, hf]
    cases ctx.mailOk <;> cases env.production <;> simp
  | some a =>
    refine ⟨a, findOne_email hf, ?_⟩
    unfold requestOtp
    simp only [h1, hte, hm, hf]
    cases ctx.mailOk <;> cases env.production <;> simp

/-- A `request-otp` call that is answered with 200 was made with a string email that is
non-empty after trimming and matches the admin email. -/
theorem requestOtp_ok (env : Env) (store : Store) (email : JsValue) (ctx : RequestCtx)
    (h : (requestOtp env store email ctx).1.status = 200) :
    ∃ e, email = .string e ∧ trim e ≠ "" ∧
      env.toLowerCase (trim e) = env.toLowerCase env.ADMIN_EMAIL := by
  unfold requestOtp at h
  cases email with
  | string e =>
    by_cases h2 : trim e = ""
    · by_cases h1 : e = "" <;> simp [JsValue.truthy, h1, h2] at h
    · by_cases hm : env.toLowerCase (trim e) = env.toLowerCase env.ADMIN_EMAIL
      · exact ⟨e, rfl, h2, hm⟩
      · have h1 : (JsValue.string e).truthy = true := by
          simp [JsValue.truthy, ne_empty_of_trim_ne_empty h2]
        simp [h1, h2, hm, forbidden] at h
  | undefined => simp [JsValue.truthy, serverError] at h
  | null => simp [JsValue.truthy, serverError] at h
  | bool b => cases b <;> simp [JsValue.truthy, serverError] at h
  | number n hs => by_cases hn : n = 0 <;> simp [JsValue.truthy, serverError, hn] at h
  | other str => simp [JsValue.truthy, serverError] at h

/-- After an accepted `request-otp` call the admin record holds the generated code and an
expiry five minutes after the call. -/
theorem requestOtp_stored (env : Env) (store : Store) (e : String) (ctx : RequestCtx)
    (hte : trim e ≠ "")
    (hm : env.toLowerCase (trim e) = env.toLowerCase env.ADMIN_EMAIL) :
    ∃ admin, findOne (requestOtp env store (.string e) ctx).2 env.ADMIN_EMAIL = some admin ∧
      admin.otp = some (generateOtp ctx.random) ∧
      admin.otpExpires = some (ctx.now + 300000) := by
  obtain ⟨a, ha, hs⟩ := requestOtp_accepted env store e ctx hte hm
  refine ⟨{ a with otp := some (generateOtp ctx.random),
                   otpExpires := some (ctx.now + 300000) }, ?_, rfl, rfl⟩
  rw [hs]
  have := findOne_save store { a with otp := some (generateOtp ctx.random),
                                      otpExpires := some (ctx.now + 300000) }
  simpa [ha] using this

/-! ## Lemmas on a record without a pending code -/

/-- With no pending code in the admin record, `verify-otp` leaves the store as it is. -/
theorem verifyOtp_store_of_no_otp (env : Env) (store : Store) (a : Admin)
    (hf : findOne store env.ADMIN_EMAIL = some a) (ha : a.otp = none)
    (body : VerifyBody) (now : Nat) : (verifyOtp env store body now).2 = store := by
  by_cases hc : ∃ e code, body.email = .string e ∧ trim e ≠ "" ∧ body.otp.truthy = true ∧
      body.otp.toJsString = some code ∧ trim code ≠ "" ∧
      env.toLowerCase (trim e) = env.toLowerCase env.ADMIN_EMAIL
  · obtain ⟨e, code, he, hte, ho, hs, htc, hm⟩ := hc
    rw [verifyOtp_checked env store body now e code he hte ho hs htc hm]
    simp [hf, ha, otpUnset]
  · exact (verifyOtp_unchecked env store body now hc).1

theorem verifyAll_of_no_otp (env : Env) (store : Store) (a : Admin)
    (hf : findOne store env.ADMIN_EMAIL = some a) (ha : a.otp = none)
    (calls : List (VerifyBody × Nat)) : verifyAll env store calls = store := by
  induction calls with
  | nil => rfl
  | cons c rest ih =>
    obtain ⟨body, now⟩ := c
    simp only [verifyAll]
    rw [verifyOtp_store_of_no_otp env store a hf ha body now]
    exact ih

/-- A successful `verify-otp` call passed every check and cleared the pending code. -/
theorem verifyOtp_ok (env : Env) (store : Store) (body : VerifyBody) (now : Nat)
    (t : SessionToken) (h : (verifyOtp env store body now).1 = ⟨200, .token t⟩) :
    ∃ e code admin, body.email = .string e ∧ trim e ≠ "" ∧ body.otp.truthy = true ∧
      body.otp.toJsString = some code ∧ trim code ≠ "" ∧
      env.toLowerCase (trim e) = env.toLowerCase env.ADMIN_EMAIL ∧
      findOne store env.ADMIN_EMAIL = some admin ∧
      t = ⟨admin._id, admin.email, now / 1000,
            now / 1000 + (if body.remember.truthy then 2592000 else 21600)⟩ ∧
      (verifyOtp env store body now).2 =
        save store { admin with otp := none, otpExpires := none } := by
  by_cases hc : ∃ e code, body.email = .string e ∧ trim e ≠ "" ∧ body.otp.truthy = true ∧
      body.otp.toJsString = some code ∧ trim code ≠ "" ∧
      env.toLowerCase (trim e) = env.toLowerCase env.ADMIN_EMAIL
  · obtain ⟨e, code, he, hte, ho, hs, htc, hm⟩ := hc
    rw [verifyOtp_checked env store body now e code he hte ho hs htc hm] at h ⊢
    cases hf : findOne store env.ADMIN_EMAIL with
    | none => simp [hf] at h
    | some admin =>
      simp only [hf] at h ⊢
      split at h
      · simp at h
      · rename_i hx
        split at h
        · simp at h
        · rename_i hy
          refine ⟨e, code, admin, he, hte, ho, hs, htc, hm, rfl, ?_, ?_⟩
          · simp only [Response.mk.injEq, Body.token.injEq, true_and] at h
            exact h.symm
          · rw [if_neg hx, if_neg hy]
  · have := (verifyOtp_unchecked env store body now hc).2
    rw [h] at this
    exact absurd rfl this

/-! ## Claims on `verify-otp` -/

/-- C2: single use. After a successful `verify-otp` call, a later call with the same email
and the same otp (whatever its `remember` flag and its time) is answered with 400
`OTP expired or not requested` and changes nothing, also when any number of other
`verify-otp` calls were handled in between. -/
theorem verifyOtp_single_use (env : Env) (store : Store) (body : VerifyBody) (now : Nat)
    (t : SessionToken) (h : (verifyOtp env store body now).1 = ⟨200, .token t⟩)
    (between : List (VerifyBody × Nat)) (remember : JsValue) (later : Nat) :
    verifyOtp env (verifyAll env (verifyOtp env store body now).2 between)
        ⟨body.email, body.otp, remember⟩ later =
      (⟨400, .error "OTP expired or not requested"⟩,
        verifyAll env (verifyOtp env store body now).2 between) := by
  obtain ⟨e, code, admin, he, hte, ho, hs, htc, hm, hf, -, hstore⟩ :=
    verifyOtp_ok env store body now t h
  have hemail : admin.email = env.ADMIN_EMAIL := findOne_email hf
  have hf' : findOne (verifyOtp env store body now).2 env.ADMIN_EMAIL =
      some { admin with otp := none, otpExpires := none } := by
    rw [hstore]
    have := findOne_save store { admin with otp := none, otpExpires := none }
    simpa [hemail] using this
  rw [verifyAll_of_no_otp env _ _ hf' rfl between]
  rw [verifyOtp_checked env _ ⟨body.email, body.otp, remember⟩ later e code he hte ho hs htc hm]
  simp [hf', otpUnset]

/-- Witness of C2: a code issued to `admin@example.com` is accepted once and refused when
replayed after two other attempts. -/
theorem verifyOtp_single_use_witness :
    (verifyOtp exampleEnv [⟨1, "admin@example.com", some "123456", some 1000⟩]
        ⟨.string "admin@example.com", .string "123456", .undefined⟩ 500).1 =
      ⟨200, .token ⟨1, "admin@example.com", 0, 21600⟩⟩ ∧
    verifyOtp exampleEnv
        (verifyAll exampleEnv
          (verifyOtp exampleEnv [⟨1, "admin@example.com", some "123456", some 1000⟩]
            ⟨.string "admin@example.com", .string "123456", .undefined⟩ 500).2
          [(⟨.string "admin@example.com", .string "000000", .undefined⟩, 600),
           (⟨.string "other@example.com", .string "123456", .undefined⟩, 700)])
        ⟨.string "admin@example.com", .string "123456", .bool true⟩ 800 =
      (⟨400, .error "OTP expired or not requested"⟩,
        verifyAll exampleEnv
          (verifyOtp exampleEnv [⟨1, "admin@example.com", some "123456", some 1000⟩]
            ⟨.string "admin@example.com", .string "123456", .undefined⟩ 500).2
          [(⟨.string "admin@example.com", .string "000000", .undefined⟩, 600),
           (⟨.string "other@example.com", .string "123456", .undefined⟩, 700)]) :=
  ⟨by decide,
   verifyOtp_single_use exampleEnv [⟨1, "admin@example.com", some "123456", some 1000⟩]
     ⟨.string "admin@example.com", .string "123456", .undefined⟩ 500
     ⟨1, "admin@example.com", 0, 21600⟩ (by decide) _ (.bool true) 800⟩

/-! ## The `verify-otp` contract -/

/-- The `verify-otp` handler answers 200 with a token exactly when the request passes the
required-field check (the email is a string that is non-empty after trimming, the otp is
truthy and its string form is non-empty after trimming), the trimmed, lower-cased email
equals the lower-cased admin email, an admin record exists, the current time is at most
its `otpExpires`, and the submitted code equals the stored one. -/
theorem verifyOtp_success_iff_checked (env : Env) (store : Store) (body : VerifyBody)
    (now : Nat) :
    (∃ t, (verifyOtp env store body now).1 = ⟨200, .token t⟩) ↔
      ∃ e code, body.email = .string e ∧ trim e ≠ "" ∧ body.otp.truthy = true ∧
        body.otp.toJsString = some code ∧ trim code ≠ "" ∧
        env.toLowerCase (trim e) = env.toLowerCase env.ADMIN_EMAIL ∧
        ∃ admin, findOne store env.ADMIN_EMAIL = some admin ∧
          (∃ expires, admin.otpExpires = some expires ∧ now ≤ expires) ∧
          admin.otp = some code := by
  constructor
  · rintro ⟨t, ht⟩
    by_cases hc : ∃ e code, body.email = .string e ∧ trim e ≠ "" ∧ body.otp.truthy = true ∧
        body.otp.toJsString = some code ∧ trim code ≠ "" ∧
        env.toLowerCase (trim e) = env.toLowerCase env.ADMIN_EMAIL
    · obtain ⟨e, code, he, hte, ho, hs, htc, hm⟩ := hc
      refine ⟨e, code, he, hte, ho, hs, htc, hm, ?_⟩
      rw [verifyOtp_checked env store body now e code he hte ho hs htc hm] at ht
      cases hf : findOne store env.ADMIN_EMAIL with
      | none => simp [hf] at ht
      | some admin =>
        simp only [hf] at ht
        split at ht
        · simp at ht
        · rename_i hx
          split at ht
          · simp at ht
          · rename_i hy
            refine ⟨admin, rfl, ?_, by simpa using hy⟩
            cases hexp : admin.otpExpires with
            | none => simp [hexp] at hx
            | some expires =>
              refine ⟨expires, rfl, ?_⟩
              simp [hexp, isAfter] at hx
              exact hx.2
    · have := (verifyOtp_unchecked env store body now hc).2
      rw [ht] at this
      exact absurd rfl this
  · rintro ⟨e, code, he, hte, ho, hs, htc, hm, admin, hf, ⟨expires, hexp, hle⟩, hotp⟩
    rw [verifyOtp_checked env store body now e code he hte ho hs htc hm]
    have hcode : code ≠ "" := ne_empty_of_trim_ne_empty htc
    have hnot : ¬ expires < now := Nat.not_lt.2 hle
    simp [hf, hexp, hotp, otpUnset, isAfter, hcode, hnot]

/-- A six-digit code is not blank. -/
theorem trim_sixDigit_ne_empty {code : String} (h : sixDigit code = true) :
    trim code ≠ "" := by
  simp only [sixDigit, Bool.and_eq_true, beq_iff_eq, List.all_eq_true] at h
  obtain ⟨hlen, hall⟩ := h
  rcases hd : code.data with _ | ⟨c, cs⟩
  · have : code.length = 0 := by simp [String.length, hd]
    omega
  · have hc : c ∈ code.data := by rw [hd]; exact List.mem_cons_self _ _
    exact trim_ne_empty hc (isDigit_not_whiteSpace c (hall c hc))

/-- A value whose string form is a six-digit code is truthy. -/
theorem truthy_of_sixDigit {v : JsValue} {code : String} (hs : v.toJsString = some code)
    (h : sixDigit code = true) : v.truthy = true := by
  cases v with
  | undefined => simp [JsValue.toJsString] at hs
  | null => simp [JsValue.toJsString] at hs
  | bool b =>
    cases b
    · simp only [JsValue.toJsString, Option.some.injEq] at hs
      rw [← hs] at h
      exact absurd h (by decide)
    · rfl
  | number n hn =>
    by_cases h0 : n = 0
    · subst h0
      simp only [JsValue.toJsString, Option.some.injEq] at hs
      rw [← hs] at h
      exact absurd h (by decide)
    · simp [JsValue.truthy, h0]
  | string s =>
    simp only [JsValue.toJsString, Option.some.injEq] at hs
    subst hs
    have := ne_empty_of_trim_ne_empty (trim_sixDigit_ne_empty h)
    simp [JsValue.truthy, this]
  | other str => rfl

/-- C1: for every request body and current time, and for every store state of the data
model (each stored otp is a six-digit numeric string) under a configured, non-empty admin
email (its lower-cased form is not that of the empty string), `verify-otp` answers 200
with a token if and only if all four hold: the trimmed, lower-cased email equals the
lower-cased admin email; an admin record exists in the store; the current time is at most
the record's `otpExpires`; and the submitted code string-equals the stored otp. -/
theorem verifyOtp_succeeds_iff (env : Env) (store : Store) (body : VerifyBody) (now : Nat)
    (hadmin : env.toLowerCase env.ADMIN_EMAIL ≠ env.toLowerCase "")
    (hstore : ∀ admin ∈ store, ∀ code, admin.otp = some code → sixDigit code = true) :
    (∃ t, (verifyOtp env store body now).1 = ⟨200, .token t⟩) ↔
      (∃ e, body.email = .string e ∧
        env.toLowerCase (trim e) = env.toLowerCase env.ADMIN_EMAIL) ∧
      ∃ admin, findOne store env.ADMIN_EMAIL = some admin ∧
        (∃ expires, admin.otpExpires = some expires ∧ now ≤ expires) ∧
        ∃ code, body.otp.toJsString = some code ∧ admin.otp = some code := by
  rw [verifyOtp_success_iff_checked]
  constructor
  · rintro ⟨e, code, he, -, -, hs, -, hm, admin, hf, hexp, hotp⟩
    exact ⟨⟨e, he, hm⟩, admin, hf, hexp, code, hs, hotp⟩
  · rintro ⟨⟨e, he, hm⟩, admin, hf, hexp, code, hs, hotp⟩
    have hmem : admin ∈ store := List.mem_of_find?_eq_some hf
    have hsix : sixDigit code = true := hstore admin hmem code hotp
    have hte : trim e ≠ "" := by
      intro h
      rw [h] at hm
      exact hadmin hm.symm
    exact ⟨e, code, he, hte, truthy_of_sixDigit hs hsix, hs, trim_sixDigit_ne_empty hsix, hm,
      admin, hf, hexp, hotp⟩

/-- Witness of C1: in the example configuration, with the code `123456` pending until
time 1000, the four conditions hold at time 500 and the handler answers with a token. -/
theorem verifyOtp_succeeds_iff_witness :
    exampleEnv.toLowerCase exampleEnv.ADMIN_EMAIL ≠ exampleEnv.toLowerCase "" ∧
    sixDigit "123456" = true ∧
    ∃ t, (verifyOtp exampleEnv [⟨1, "admin@example.com", some "123456", some 1000⟩]
      ⟨.string " Admin@Example.com ", .number 123456 (by decide), .undefined⟩ 500).1 =
        ⟨200, .token t⟩ :=
  ⟨by decide, by decide,
   (verifyOtp_succeeds_iff exampleEnv [⟨1, "admin@example.com", some "123456", some 1000⟩]
      ⟨.string " Admin@Example.com ", .number 123456 (by decide), .undefined⟩ 500
      (by decide)
      (by
        intro admin hmem code hcode
        simp only [List.mem_singleton] at hmem
        subst hmem
        simp only [Option.some.injEq] at hcode
        subst hcode
        decide)).2
     ⟨⟨" Admin@Example.com ", rfl, by decide⟩,
      ⟨1, "admin@example.com", some "123456", some 1000⟩, by decide,
      ⟨1000, rfl, by decide⟩, "123456", by decide, rfl⟩⟩

/-- The hypothesis on the stored codes is needed: against a record whose stored code is a
single blank, which no handler writes, the four conditions hold for the submitted code
`" "` and the handler answers 400 `Email and OTP are required`. -/
theorem verifyOtp_blank_stored_code :
    (exampleEnv.toLowerCase (trim "admin@example.com") =
        exampleEnv.toLowerCase exampleEnv.ADMIN_EMAIL ∧
      ∃ admin, findOne [⟨1, "admin@example.com", some " ", some 1000⟩]
          exampleEnv.ADMIN_EMAIL = some admin ∧
        (∃ expires, admin.otpExpires = some expires ∧ 500 ≤ expires) ∧
        ∃ code, (JsValue.string " ").toJsString = some code ∧ admin.otp = some code) ∧
    verifyOtp exampleEnv [⟨1, "admin@example.com", some " ", some 1000⟩]
        ⟨.string "admin@example.com", .string " ", .undefined⟩ 500 =
      (⟨400, .error "Email and OTP are required"⟩,
        [⟨1, "admin@example.com", some " ", some 1000⟩]) := by
  refine ⟨⟨by decide, ⟨1, "admin@example.com", some " ", some 1000⟩, by decide,
    ⟨1000, rfl, by decide⟩, " ", rfl, rfl⟩, by decide⟩

/-- C6: the token issued by a successful `verify-otp` call is valid for 30 days when
`remember` is truthy and for 6 hours otherwise; so for 6 hours when `remember` is `false`
or absent, for 30 days when it is `true`, and never for any other duration. -/
theorem verifyOtp_token_lifetime (env : Env) (store : Store) (body : VerifyBody) (now : Nat)
    (t : SessionToken) (h : (verifyOtp env store body now).1 = ⟨200, .token t⟩) :
    t.exp = t.iat + (if body.remember.truthy then 30 * 24 * 60 * 60 else 6 * 60 * 60) ∧
    (body.remember = .bool false ∨ body.remember = .undefined →
      t.exp - t.iat = 6 * 60 * 60) ∧
    (body.remember = .bool true → t.exp - t.iat = 30 * 24 * 60 * 60) ∧
    (t.exp - t.iat = 6 * 60 * 60 ∨ t.exp - t.iat = 30 * 24 * 60 * 60) := by
  obtain ⟨e, code, admin, -, -, -, -, -, -, -, ht, -⟩ := verifyOtp_ok env store body now t h
  subst ht
  refine ⟨?_, ?_, ?_, ?_⟩
  · simp
  · rintro (hr | hr) <;> simp [hr, JsValue.truthy]
  · intro hr; simp [hr, JsValue.truthy]
  · cases body.remember.truthy <;> simp

/-- Witness of C6: a login without `remember` receives a token valid for 21600 seconds. -/
theorem verifyOtp_token_lifetime_witness :
    (verifyOtp exampleEnv [⟨1, "admin@example.com", some "123456", some 1000⟩]
        ⟨.string "admin@example.com", .string "123456", .undefined⟩ 500).1 =
      ⟨200, .token ⟨1, "admin@example.com", 0, 21600⟩⟩ ∧
    (21600 : Nat) - 0 = 6 * 60 * 60 :=
  ⟨by decide,
   (verifyOtp_token_lifetime exampleEnv [⟨1, "admin@example.com", some "123456", some 1000⟩]
     ⟨.string "admin@example.com", .string "123456", .undefined⟩ 500
     ⟨1, "admin@example.com", 0, 21600⟩ (by decide)).2.1 (Or.inr rfl)⟩

/-- C5, as stated, fails: the email `" "` is non-empty and does not match the admin email,
the otp `"123456"` is non-empty, and the handler answers 400 `Email and OTP are required`
instead of 403. -/
theorem verifyOtp_blank_email_not_forbidden :
    (" " : String) ≠ "" ∧ ("123456" : String) ≠ "" ∧
    exampleEnv.toLowerCase (trim " ") ≠ exampleEnv.toLowerCase exampleEnv.ADMIN_EMAIL ∧
    verifyOtp exampleEnv [] ⟨.string " ", .string "123456", .undefined⟩ 0 =
      (⟨400, .error "Email and OTP are required"⟩, []) ∧
    (verifyOtp exampleEnv [] ⟨.string " ", .string "123456", .undefined⟩ 0).1 ≠ forbidden := by
  decide

/-- C5, amended: for a request that passes the required-field check (the email is a string
that is non-empty after trimming, the otp is truthy and its string form is non-empty after
trimming), `verify-otp` reports the first failing precondition, in this order: an email
mismatch gives 403 whatever the store holds; otherwise a missing admin record gives
`Admin not found`; otherwise a record with no otp (unset or empty), no `otpExpires`, or an
`otpExpires` before the current time gives `OTP expired or not requested`; otherwise a
stored code different from the submitted one gives `Invalid OTP`. No failure changes the
store. -/
theorem verifyOtp_precondition_order (env : Env) (store : Store) (body : VerifyBody)
    (now : Nat) (e code : String) (he : body.email = .string e) (hte : trim e ≠ "")
    (ho : body.otp.truthy = true) (hs : body.otp.toJsString = some code)
    (htc : trim code ≠ "") :
    (env.toLowerCase (trim e) ≠ env.toLowerCase env.ADMIN_EMAIL →
      verifyOtp env store body now = (forbidden, store)) ∧
    (env.toLowerCase (trim e) = env.toLowerCase env.ADMIN_EMAIL →
      (findOne store env.ADMIN_EMAIL = none →
        verifyOtp env store body now = (⟨400, .error "Admin not found"⟩, store)) ∧
      ∀ admin, findOne store env.ADMIN_EMAIL = some admin →
        ((admin.otp = none ∨ admin.otp = some "" ∨ admin.otpExpires = none ∨
            ∃ expires, admin.otpExpires = some expires ∧ expires < now) →
          verifyOtp env store body now =
            (⟨400, .error "OTP expired or not requested"⟩, store)) ∧
        (∀ stored expires, admin.otp = some stored → stored ≠ "" →
            admin.otpExpires = some expires → now ≤ expires → stored ≠ code →
          verifyOtp env store body now = (⟨400, .error "Invalid OTP"⟩, store))) := by
  have h1 : (JsValue.string e).truthy = true := by
    simp [JsValue.truthy, ne_empty_of_trim_ne_empty hte]
  refine ⟨fun hm => ?_, fun hm => ⟨fun hf => ?_, fun admin hf => ⟨?_, ?_⟩⟩⟩
  · unfold verifyOtp
    simp only [he, h1, ho, hs, hte, htc]
    simp [hm]
  · rw [verifyOtp_checked env store body now e code he hte ho hs htc hm]
    simp [hf]
  · intro hcase
    rw [verifyOtp_checked env store body now e code he hte ho hs htc hm]
    simp only [hf]
    rcases hcase with h | h | h | ⟨x, hx, hlt⟩
    · simp [h, otpUnset]
    · simp [h, otpUnset]
    · simp [h]
    · simp [hx, isAfter, hlt]
  · intro stored expires hst hne hexp hle hdiff
    rw [verifyOtp_checked env store body now e code he hte ho hs htc hm]
    have hnot : ¬ expires < now := Nat.not_lt.2 hle
    simp [hf, hst, hexp, otpUnset, isAfter, hne, hnot, hdiff]

/-- Witness of C5: a well-formed request for another address is refused with 403. -/
theorem verifyOtp_precondition_order_witness :
    trim "eve@example.com" ≠ "" ∧ trim "123456" ≠ "" ∧
    verifyOtp exampleEnv [] ⟨.string "eve@example.com", .string "123456", .undefined⟩ 0 =
      (forbidden, []) :=
  ⟨by decide, by decide,
   (verifyOtp_precondition_order exampleEnv []
     ⟨.string "eve@example.com", .string "123456", .undefined⟩ 0 "eve@example.com" "123456"
     rfl (by decide) (by decide) rfl (by decide)).1 (by decide)⟩

/-! ## Claims on `request-otp` -/

/-- C4, as stated, fails: the blank email `" "` and the empty email are not the admin
email, also after trimming and lower-casing, and `request-otp` answers both with 400
`Email is required` instead of 403. -/
theorem requestOtp_blank_email_not_forbidden :
    exampleEnv.toLowerCase (trim " ") ≠ exampleEnv.toLowerCase exampleEnv.ADMIN_EMAIL ∧
    requestOtp exampleEnv [] (.string " ") ⟨0, 0, 0, true⟩ =
      (⟨400, .error "Email is required"⟩, []) ∧
    (requestOtp exampleEnv [] (.string " ") ⟨0, 0, 0, true⟩).1 ≠ forbidden ∧
    requestOtp exampleEnv [] (.string "") ⟨0, 0, 0, true⟩ =
      (⟨400, .error "Email is required"⟩, []) := by
  decide

/-- C4, amended: for every email string that is non-empty after trimming and whose
trimmed, lower-cased form differs from the lower-cased admin email, and for every store
state, `request-otp` answers 403 and leaves the store as it is. -/
theorem requestOtp_forbidden (env : Env) (store : Store) (e : String) (ctx : RequestCtx)
    (hte : trim e ≠ "")
    (hm : env.toLowerCase (trim e) ≠ env.toLowerCase env.ADMIN_EMAIL) :
    requestOtp env store (.string e) ctx = (forbidden, store) ∧ forbidden.status = 403 := by
  have h1 : (JsValue.string e).truthy = true := by
    simp [JsValue.truthy, ne_empty_of_trim_ne_empty hte]
  unfold requestOtp
  simp only [h1, hte]
  simp [hm, forbidden]

/-- Witness of C4: a request for another address is refused whatever the store holds. -/
theorem requestOtp_forbidden_witness :
    trim " Eve@Example.com" ≠ "" ∧
    requestOtp exampleEnv [⟨1, "admin@example.com", some "123456", some 1000⟩]
        (.string " Eve@Example.com") ⟨0, 0, 0, true⟩ =
      (forbidden, [⟨1, "admin@example.com", some "123456", some 1000⟩]) :=
  ⟨by decide,
   (requestOtp_forbidden exampleEnv [⟨1, "admin@example.com", some "123456", some 1000⟩]
     " Eve@Example.com" ⟨0, 0, 0, true⟩ (by decide) (by decide)).1⟩

/-- C7: for every draw `r` of `Math.random()`, a double with `0 ≤ r < 1`, the number
`Math.floor(100000 + r * 900000)`, computed in doubles as the code computes it, lies in
`[100000, 999999]`, and the generated code, its decimal string, has exactly six
characters, all of them digits, the first of which is not `0`. -/
theorem generateOtp_six_digits (r : ℚ) (hd : roundDouble r = r) (h0 : 0 ≤ r) (h1 : r < 1) :
    100000 ≤ otpNumber r ∧ otpNumber r ≤ 999999 ∧
    (generateOtp r).length = 6 ∧
    (generateOtp r).data.all Char.isDigit = true ∧
    (generateOtp r).data.head? ≠ some '0' := by
  obtain ⟨hlo, hhi⟩ := otpNumber_bounds hd h0 h1
  obtain ⟨n, hn⟩ : ∃ n : Nat, otpNumber r = Int.ofNat n :=
    ⟨(otpNumber r).toNat, (Int.toNat_of_nonneg (by omega)).symm⟩
  have hn1 : 100000 ≤ n := by
    have : (100000 : Int) ≤ Int.ofNat n := hn ▸ hlo
    exact Int.ofNat_le.1 this
  have hn2 : n ≤ 999999 := by
    have : Int.ofNat n < 1000000 := hn ▸ hhi
    have : n < 1000000 := Int.ofNat_lt.1 this
    omega
  have hstr : generateOtp r = Nat.repr n := by
    unfold generateOtp
    rw [hn]
    rfl
  refine ⟨hlo, by omega, ?_, ?_, ?_⟩
  · rw [hstr, repr_six_digits n hn1 hn2]; rfl
  · rw [hstr, repr_six_digits n hn1 hn2]
    simp [digitChar_isDigit, Nat.mod_lt]
  · rw [hstr, repr_six_digits n hn1 hn2]
    have h9 : n / 100000 % 10 = n / 100000 := by omega
    have hpos : 1 ≤ n / 100000 := by omega
    have hle : n / 100000 ≤ 9 := by omega
    rw [h9]
    simp only [List.head?_cons, ne_eq, Option.some.injEq]
    generalize n / 100000 = d at hpos hle
    interval_cases d <;> decide

/-- Witness of C7: the draw `1/2` is a double and gives a code of six characters. -/
theorem generateOtp_six_digits_witness :
    roundDouble (1 / 2) = 1 / 2 ∧ (0 : ℚ) ≤ 1 / 2 ∧ (1 / 2 : ℚ) < 1 ∧
    (generateOtp (1 / 2)).length = 6 :=
  ⟨roundDouble_half, by norm_num, by norm_num,
   (generateOtp_six_digits (1 / 2) roundDouble_half (by norm_num) (by norm_num)).2.2.1⟩

/-- C3: issue, then verify. After `request-otp` is answered with 200 at time `ctx.now`,
the admin record holds the generated code and the expiry `ctx.now + 300000`; `verify-otp`
with the same email and that code is answered with 200 and a token at every time from
`ctx.now` to `ctx.now + 300000`, and with 400 `OTP expired or not requested` at every
later time. -/
theorem requestOtp_then_verifyOtp (env : Env) (store : Store) (email : JsValue)
    (ctx : RequestCtx) (h : (requestOtp env store email ctx).1.status = 200) :
    (∃ admin, findOne (requestOtp env store email ctx).2 env.ADMIN_EMAIL = some admin ∧
      admin.otp = some (generateOtp ctx.random) ∧
      admin.otpExpires = some (ctx.now + 300000)) ∧
    ∀ (remember : JsValue) (t' : Nat),
      (ctx.now ≤ t' → t' ≤ ctx.now + 300000 →
        ∃ token, verifyOtp env (requestOtp env store email ctx).2
          ⟨email, .string (generateOtp ctx.random), remember⟩ t' =
            (⟨200, .token token⟩,
              save (requestOtp env store email ctx).2
                ⟨token.id, env.ADMIN_EMAIL, none, none⟩)) ∧
      (ctx.now + 300000 < t' →
        verifyOtp env (requestOtp env store email ctx).2
          ⟨email, .string (generateOtp ctx.random), remember⟩ t' =
            (⟨400, .error "OTP expired or not requested"⟩,
              (requestOtp env store email ctx).2)) := by
  obtain ⟨e, rfl, hte, hm⟩ := requestOtp_ok env store email ctx h
  obtain ⟨admin, hf, hotp, hexp⟩ := requestOtp_stored env store e ctx hte hm
  have hcode : trim (generateOtp ctx.random) ≠ "" := trim_generateOtp_ne_empty _
  have hne : generateOtp ctx.random ≠ "" := ne_empty_of_trim_ne_empty hcode
  have hto : (JsValue.string (generateOtp ctx.random)).truthy = true := by
    simp [JsValue.truthy, hne]
  refine ⟨⟨admin, hf, hotp, hexp⟩, fun remember t' => ⟨fun _ hle => ?_, fun hlt => ?_⟩⟩
  · rw [verifyOtp_checked env _ ⟨.string e, .string (generateOtp ctx.random), remember⟩ t' e
      (generateOtp ctx.random) rfl hte hto rfl hcode hm]
    have hnot : ¬ ctx.now + 300000 < t' := Nat.not_lt.2 hle
    refine ⟨⟨admin._id, admin.email, t' / 1000,
      t' / 1000 + (if remember.truthy then 2592000 else 21600)⟩, ?_⟩
    simp [hf, hotp, hexp, otpUnset, isAfter, hne, hnot, findOne_email hf]
  · rw [verifyOtp_checked env _ ⟨.string e, .string (generateOtp ctx.random), remember⟩ t' e
      (generateOtp ctx.random) rfl hte hto rfl hcode hm]
    simp [hf, hexp, isAfter, hlt]

theorem generateOtp_eq (r : ℚ) : generateOtp r = toString (otpNumber r) := rfl

theorem toString_100000 (n : Int) (h : n = 100000) : toString n = "100000" := by
  subst h
  show Nat.repr 100000 = "100000"
  rw [repr_six_digits 100000 (by norm_num) (by norm_num)]
  decide

theorem generateOtp_zero : generateOtp 0 = "100000" :=
  (generateOtp_eq 0).trans (toString_100000 _ otpNumber_zero)

theorem requestOtp_example_ok (store : Store) (ctx : RequestCtx) (hmail : ctx.mailOk = true) :
    (requestOtp exampleEnv store (.string "admin@example.com") ctx).1.status = 200 := by
  unfold requestOtp
  have h1 : (JsValue.string "admin@example.com").truthy = true := by decide
  have h2 : trim "admin@example.com" ≠ "" := by decide
  have h3 : exampleEnv.toLowerCase (trim "admin@example.com") =
      exampleEnv.toLowerCase exampleEnv.ADMIN_EMAIL := by decide
  simp only [h1, h2, h3, hmail]
  simp

/-- Witness of C3: a first request in the example configuration. -/
theorem requestOtp_then_verifyOtp_witness :
    (requestOtp exampleEnv [] (.string "admin@example.com") ⟨1000, 0, 7, true⟩).1.status = 200 ∧
    ∃ admin, findOne (requestOtp exampleEnv [] (.string "admin@example.com")
        ⟨1000, 0, 7, true⟩).2 exampleEnv.ADMIN_EMAIL = some admin ∧
      admin.otp = some (generateOtp 0) ∧ admin.otpExpires = some (1000 + 300000) :=
  ⟨requestOtp_example_ok [] ⟨1000, 0, 7, true⟩ rfl,
   (requestOtp_then_verifyOtp exampleEnv [] (.string "admin@example.com") ⟨1000, 0, 7, true⟩
     (requestOtp_example_ok [] ⟨1000, 0, 7, true⟩ rfl)).1⟩

/-- C10, as stated, fails: two successive successful `request-otp` calls that both draw 0
generate the same code `100000` twice, and `verify-otp` with the first call's code
still succeeds after the second call. -/
theorem requestOtp_twice_same_code_still_verifies :
    (requestOtp exampleEnv [] (.string "admin@example.com") ⟨1000, 0, 7, true⟩).1.status = 200 ∧
    (requestOtp exampleEnv
      (requestOtp exampleEnv [] (.string "admin@example.com") ⟨1000, 0, 7, true⟩).2
      (.string "admin@example.com") ⟨2000, 0, 8, true⟩).1.status = 200 ∧
    generateOtp 0 = "100000" ∧
    (verifyOtp exampleEnv
      (requestOtp exampleEnv
        (requestOtp exampleEnv [] (.string "admin@example.com") ⟨1000, 0, 7, true⟩).2
        (.string "admin@example.com") ⟨2000, 0, 8, true⟩).2
      ⟨.string "admin@example.com", .string "100000", .undefined⟩ 3000).1 =
        ⟨200, .token ⟨7, "admin@example.com", 3, 21603⟩⟩ := by
  have hs1 : (requestOtp exampleEnv [] (.string "admin@example.com") ⟨1000, 0, 7, true⟩).2 =
      [⟨7, "admin@example.com", some "100000", some 301000⟩] := by
    unfold requestOtp
    have h1 : (JsValue.string "admin@example.com").truthy = true := by decide
    have h2 : trim "admin@example.com" ≠ "" := by decide
    have h3 : exampleEnv.toLowerCase (trim "admin@example.com") =
        exampleEnv.toLowerCase exampleEnv.ADMIN_EMAIL := by decide
    simp only [h1, h2, h3, generateOtp_zero]
    decide
  have hs2 : (requestOtp exampleEnv [⟨7, "admin@example.com", some "100000", some 301000⟩]
      (.string "admin@example.com") ⟨2000, 0, 8, true⟩).2 =
      [⟨7, "admin@example.com", some "100000", some 302000⟩] := by
    unfold requestOtp
    have h1 : (JsValue.string "admin@example.com").truthy = true := by decide
    have h2 : trim "admin@example.com" ≠ "" := by decide
    have h3 : exampleEnv.toLowerCase (trim "admin@example.com") =
        exampleEnv.toLowerCase exampleEnv.ADMIN_EMAIL := by decide
    simp only [h1, h2, h3, generateOtp_zero]
    decide
  refine ⟨requestOtp_example_ok _ _ rfl, requestOtp_example_ok _ _ rfl, generateOtp_zero, ?_⟩
  rw [hs1, hs2]
  decide

/-- C10, amended: last writer wins. After two successive successful `request-otp` calls
the admin record holds the second call's code and expiry (the first call had stored its
own), and whenever the two codes differ no `verify-otp` call that submits the first code
succeeds. -/
theorem requestOtp_last_writer_wins (env : Env) (store : Store) (email₁ email₂ : JsValue)
    (ctx₁ ctx₂ : RequestCtx)
    (h₁ : (requestOtp env store email₁ ctx₁).1.status = 200)
    (h₂ : (requestOtp env (requestOtp env store email₁ ctx₁).2 email₂ ctx₂).1.status = 200) :
    (∃ admin, findOne (requestOtp env store email₁ ctx₁).2 env.ADMIN_EMAIL = some admin ∧
      admin.otp = some (generateOtp ctx₁.random) ∧
      admin.otpExpires = some (ctx₁.now + 300000)) ∧
    (∃ admin, findOne (requestOtp env (requestOtp env store email₁ ctx₁).2 email₂ ctx₂).2
        env.ADMIN_EMAIL = some admin ∧
      admin.otp = some (generateOtp ctx₂.random) ∧
      admin.otpExpires = some (ctx₂.now + 300000)) ∧
    (generateOtp ctx₁.random ≠ generateOtp ctx₂.random →
      ∀ (body : VerifyBody) (now : Nat),
        body.otp.toJsString = some (generateOtp ctx₁.random) →
        ¬ ∃ t, (verifyOtp env
          (requestOtp env (requestOtp env store email₁ ctx₁).2 email₂ ctx₂).2 body now).1 =
            ⟨200, .token t⟩) := by
  obtain ⟨e₁, rfl, hte₁, hm₁⟩ := requestOtp_ok env store email₁ ctx₁ h₁
  obtain ⟨e₂, rfl, hte₂, hm₂⟩ := requestOtp_ok env _ email₂ ctx₂ h₂
  obtain ⟨a₂, hf₂, hotp₂, hexp₂⟩ := requestOtp_stored env
    (requestOtp env store (.string e₁) ctx₁).2 e₂ ctx₂ hte₂ hm₂
  refine ⟨requestOtp_stored env store e₁ ctx₁ hte₁ hm₁, ⟨a₂, hf₂, hotp₂, hexp₂⟩, ?_⟩
  rintro hdiff body now hs ⟨t, ht⟩
  obtain ⟨e, code, admin, he, hte, ho, hs', htc, hm, hf, -, -⟩ := verifyOtp_ok env _ body now t ht
  rw [hs] at hs'
  have hcode : code = generateOtp ctx₁.random := (Option.some.inj hs').symm
  subst hcode
  rw [hf₂] at hf
  have hadm : a₂ = admin := Option.some.inj hf
  subst hadm
  rw [verifyOtp_checked env _ body now e _ he hte ho hs htc hm] at ht
  simp only [hf₂] at ht
  have hne : a₂.otp ≠ some (generateOtp ctx₁.random) := by
    rw [hotp₂]
    intro hc
    exact hdiff (Option.some.inj hc).symm
  split at ht
  · simp at ht
  · simp at ht

/-- Witness of C10: two requests with the draws 0 and 1/2 in the example configuration. -/
theorem requestOtp_last_writer_wins_witness :
    (requestOtp exampleEnv [] (.string "admin@example.com") ⟨1000, 0, 7, true⟩).1.status = 200 ∧
    (requestOtp exampleEnv
      (requestOtp exampleEnv [] (.string "admin@example.com") ⟨1000, 0, 7, true⟩).2
      (.string "admin@example.com") ⟨2000, 1 / 2, 8, true⟩).1.status = 200 ∧
    ∃ admin, findOne (requestOtp exampleEnv
        (requestOtp exampleEnv [] (.string "admin@example.com") ⟨1000, 0, 7, true⟩).2
        (.string "admin@example.com") ⟨2000, 1 / 2, 8, true⟩).2
        exampleEnv.ADMIN_EMAIL = some admin ∧
      admin.otp = some (generateOtp (1 / 2)) ∧
      admin.otpExpires = some (2000 + 300000) :=
  ⟨requestOtp_example_ok _ _ rfl, requestOtp_example_ok _ _ rfl,
   (requestOtp_last_writer_wins exampleEnv [] (.string "admin@example.com")
     (.string "admin@example.com") ⟨1000, 0, 7, true⟩ ⟨2000, 1 / 2, 8, true⟩
     (requestOtp_example_ok _ _ rfl) (requestOtp_example_ok _ _ rfl)).2.1⟩

/-! ## Claims on the pagination parameters -/

/-- When `parseInt` reads a number, the effective limit is an integer between 1 and 100. -/
theorem limitOf_of_int (limit : Option String) (n : Int)
    (h : parseInt (orDefault limit "20") = .int n) :
    limitOf limit = .int (min (max n 1) 100) ∧ 1 ≤ min (max n 1) 100 ∧
      min (max n 1) 100 ≤ 100 := by
  refine ⟨by simp [limitOf, h, mathMax, mathMin], ?_, ?_⟩ <;> omega

/-- When `parseInt` reads a number, the effective page is an integer that is at least 1. -/
theorem pageOf_of_int (page : Option String) (n : Int)
    (h : parseInt (orDefault page "1") = .int n) :
    pageOf page = .int (max n 1) ∧ 1 ≤ max n 1 := by
  refine ⟨by simp [pageOf, h, mathMax], ?_⟩
  omega

/-- The defaults and the clamping on numeric input: no parameters give page 1 and limit
20, `limit=200` gives 100, `limit=0` and `limit=-5` give 1, `page=-3` gives 1; a numeral
above `2 ^ 53` is outside the exact range. -/
theorem pagination_numeric_examples :
    pageOf none = .int 1 ∧ limitOf none = .int 20 ∧ limitOf (some "") = .int 20 ∧
    limitOf (some "200") = .int 100 ∧ limitOf (some "0") = .int 1 ∧
    limitOf (some "-5") = .int 1 ∧ pageOf (some "-3") = .int 1 ∧
    skipOf (pageOf (some "3")) (limitOf (some "200")) = .int 200 ∧
    parseInt "9007199254740992" = .int 9007199254740992 ∧
    parseInt "9007199254740993" = .untracked := by
  decide

/-- C8 fails on a non-numeric parameter: for `page=abc` and `limit=abc`, `parseInt` returns
`NaN`, `Math.max` and `Math.min` propagate it, and the effective page, the effective limit
and `skip` are all `NaN` instead of integers in range. -/
theorem pagination_non_numeric_is_nan :
    parseInt "abc" = .nan ∧ pageOf (some "abc") = .nan ∧ limitOf (some "abc") = .nan ∧
    skipOf (pageOf (some "abc")) (limitOf (some "abc")) = .nan ∧
    skipOf (pageOf none) (limitOf (some "abc")) = .nan := by
  decide

/-! ## Claims on `verify-token` -/

/-- C9: whenever the header value that `verify-token` reads, `authorization || Authorization`,
does not split on the space character into exactly two parts, the handler answers 401
`Unauthorized` without calling `jwt.verify`: so for a request without the header, for an
empty header value, and for every value that `split(' ')` cuts into one part or into more
than two. Whenever `jwt.verify` is called, the header has exactly two parts and the call
is made once, on the second part. -/
theorem verifyToken_unauthorized (jwtVerify : String → Option SessionToken)
    (authorization Authorization : Option String) :
    ((∀ header, orElseHeader authorization Authorization = some header →
          (split header).length ≠ 2) →
      (verifyToken jwtVerify authorization Authorization).response =
          ⟨401, .error "Unauthorized"⟩ ∧
        (verifyToken jwtVerify authorization Authorization).verified = []) ∧
    (authorization = none ∧ Authorization = none →
      (verifyToken jwtVerify authorization Authorization).response =
          ⟨401, .error "Unauthorized"⟩ ∧
        (verifyToken jwtVerify authorization Authorization).verified = []) ∧
    (∀ header, authorization = some header → Authorization = none →
        (split header).length ≠ 2 →
      (verifyToken jwtVerify authorization Authorization).response =
          ⟨401, .error "Unauthorized"⟩ ∧
        (verifyToken jwtVerify authorization Authorization).verified = []) ∧
    ((verifyToken jwtVerify authorization Authorization).verified ≠ [] →
      ∃ header scheme token, orElseHeader authorization Authorization = some header ∧
        split header = [scheme, token] ∧
        (verifyToken jwtVerify authorization Authorization).verified = [token]) := by
  have main : (∀ header, orElseHeader authorization Authorization = some header →
      (split header).length ≠ 2) →
      (verifyToken jwtVerify authorization Authorization).response =
          ⟨401, .error "Unauthorized"⟩ ∧
        (verifyToken jwtVerify authorization Authorization).verified = [] := by
    intro hall
    cases hh : orElseHeader authorization Authorization with
    | none => simp [verifyToken, hh]
    | some header =>
      have hlen := hall header hh
      by_cases hne : header = ""
      · simp [verifyToken, hh, hne]
      · rcases hsplit : split header with _ | ⟨scheme, _ | ⟨token, _ | ⟨third, more⟩⟩⟩
        · simp [verifyToken, hh, hne, hsplit]
        · simp [verifyToken, hh, hne, hsplit]
        · simp [hsplit] at hlen
        · simp [verifyToken, hh, hne, hsplit]
  refine ⟨main, ?_, ?_, ?_⟩
  · rintro ⟨rfl, rfl⟩
    exact main (by simp [orElseHeader])
  · rintro header rfl rfl hlen
    refine main (fun h hh => ?_)
    by_cases hne : header = ""
    · simp [orElseHeader, hne] at hh
    · simp [orElseHeader, hne] at hh
      rw [← hh]
      exact hlen
  · intro hv
    cases hh : orElseHeader authorization Authorization with
    | none => simp [verifyToken, hh] at hv
    | some header =>
      by_cases hne : header = ""
      · simp [verifyToken, hh, hne] at hv
      · rcases hsplit : split header with _ | ⟨scheme, _ | ⟨token, _ | ⟨third, more⟩⟩⟩
        · simp [verifyToken, hh, hne, hsplit] at hv
        · simp [verifyToken, hh, hne, hsplit] at hv
        · refine ⟨header, scheme, token, rfl, hsplit, ?_⟩
          simp only [verifyToken, hh, hne, hsplit, if_false]
          cases jwtVerify token <;> rfl
        · simp [verifyToken, hh, hne, hsplit] at hv

/-- Witness of C9: a header that is present but empty, and a header of three parts, even
with a verifier that accepts every token. -/
theorem verifyToken_unauthorized_witness :
    (split "").length ≠ 2 ∧
    (verifyToken (fun _ => some ⟨1, "admin@example.com", 0, 21600⟩) (some "") none).response =
      ⟨401, .error "Unauthorized"⟩ ∧
    (verifyToken (fun _ => some ⟨1, "admin@example.com", 0, 21600⟩) (some "") none).verified =
      [] ∧
    (split "Bearer a b").length ≠ 2 ∧
    (verifyToken (fun _ => some ⟨1, "admin@example.com", 0, 21600⟩) (some "Bearer a b")
      none).response = ⟨401, .error "Unauthorized"⟩ :=
  ⟨by decide,
   ((verifyToken_unauthorized (fun _ => some ⟨1, "admin@example.com", 0, 21600⟩) (some "")
      none).1 (by intro header h; simp [orElseHeader] at h)).1,
   ((verifyToken_unauthorized (fun _ => some ⟨1, "admin@example.com", 0, 21600⟩) (some "")
      none).2.2.1 "" rfl rfl (by decide)).2,
   by decide,
   ((verifyToken_unauthorized (fun _ => some ⟨1, "admin@example.com", 0, 21600⟩)
      (some "Bearer a b") none).2.2.1 "Bearer a b" rfl rfl (by decide)).1⟩

end Alvant
